import Mathlib

/-!
Shallow embedding of the core of the diabetes readmission service
(feature contract, inference normalization, ingestion validation,
record-store seeding, aggregate statistics), together with theorems
settling the specification claims against it.

Python strings are modelled as Lean `String` (`str.strip`, `str.replace`,
`str.upper` are modelled character-wise; `upper` coincides with Python on
ASCII).  Machine floats are modelled by `Rat` (the arithmetic the claims
exercise - max, division, comparison with 0 and 1, rounding of exact
decimal values - is exact).  Pandas data frames are modelled by `Frame`:
a list of column names plus rows as association lists from column name to
`Cell`, where `Cell.na` models a missing value (NaN).  The SQLite store is
modelled as the list of persisted `PatientTop10` records, passed and
returned explicitly; a SQLAlchemy commit that fails is modelled by a
boolean `writeFails` parameter, with rollback returning the prior store.
-/

namespace Diabetes

/-! ### Python string primitives -/

/-- The characters removed by the repeated `.replace` calls in
`src/modeling/predict.py` and `src/api/routes/predict.py`:
single quote, double quote, `[`, `]`. -/
def isJunkChar (c : Char) : Bool :=
  c == Char.ofNat 39 || c == Char.ofNat 34 || c == Char.ofNat 91 || c == Char.ofNat 93

/-- Model of Python `str.strip()` on a character list: drop leading and
trailing whitespace. -/
def pyStripList (l : List Char) : List Char :=
  ((l.dropWhile Char.isWhitespace).reverse.dropWhile Char.isWhitespace).reverse

/-- Model of Python `str.strip()`. -/
def pyStrip (s : String) : String :=
  String.mk (pyStripList s.data)

/-- The chained `.replace("'", "").replace('"', '').replace('[', '').replace(']', '')`
from the prediction-normalization code: every occurrence of the four junk
characters is removed. -/
def removeJunk (s : String) : String :=
  String.mk (s.data.filter (fun c => !isJunkChar c))

/-- `str(pred).strip()` followed by the four `.replace` calls followed by a
final `.strip()` (`src/modeling/predict.py` lines 78-80, and identically
`src/api/routes/predict.py` lines 55-56). -/
def cleanLabel (s : String) : String :=
  pyStrip (removeJunk (pyStrip s))

/-- Model of Python `str.upper()`; character-wise ASCII uppercasing
(agrees with Python on ASCII strings, which is all the synonym matching
ever compares against). -/
def pyUpper (s : String) : String :=
  String.mk (s.data.map Char.toUpper)

/-! ### Outcome normalizer (src/api/routes/predict.py lines 60-74) -/

def NO_SYNONYMS : List String := ["NO", "N", "0", "FALSE"]

def LESS30_SYNONYMS : List String := ["<30", "LESS30", "LESS_THAN_30"]

def MORE30_SYNONYMS : List String := [">30", "MORE30", "GREATER30", "MORE_THAN_30"]

def ALL_SYNONYMS : List String := NO_SYNONYMS ++ LESS30_SYNONYMS ++ MORE30_SYNONYMS

def noReadmissionCategory : String := "Нет повторной госпитализации"

def less30Category : String := "Повторная госпитализация в течение 30 дней"

def more30Category : String := "Повторная госпитализация более чем через 30 дней"

def unknownFormatCategory (raw : String) : String := "Неизвестный формат: " ++ raw

def lowRisk : String := "Низкий риск"

def highRisk : String := "Высокий риск"

def mediumRisk : String := "Средний риск"

def undeterminedRisk : String := "Неопределено"

structure Outcome where
  category : String
  risk_level : String
deriving DecidableEq

/-- The route's label-to-taxonomy mapping
(`src/api/routes/predict.py` lines 60-74): uppercase the cleaned
prediction string and compare against the three synonym groups. -/
def normalizeOutcome (predictionStr : String) : Outcome :=
  let u := pyUpper predictionStr
  if NO_SYNONYMS.contains u then
    ⟨noReadmissionCategory, lowRisk⟩
  else if LESS30_SYNONYMS.contains u then
    ⟨less30Category, highRisk⟩
  else if MORE30_SYNONYMS.contains u then
    ⟨more30Category, mediumRisk⟩
  else
    ⟨unknownFormatCategory predictionStr, undeterminedRisk⟩

end Diabetes

namespace Diabetes

/-- C1: for every label string, the normalizer maps the NO-group synonyms
(case-insensitively) to the no-readmission category with low risk, the
<30 group to the within-30-days category with high risk, the >30 group to
the after-30-days category with medium risk, and the result carries the
undetermined tier - with a category embedding the raw label - exactly when
the uppercased label is in none of the nine recognized synonym groups. -/
theorem C1_outcome_normalizer (raw : String) :
    (pyUpper raw ∈ NO_SYNONYMS →
      normalizeOutcome raw = ⟨noReadmissionCategory, lowRisk⟩)
    ∧ (pyUpper raw ∈ LESS30_SYNONYMS →
      normalizeOutcome raw = ⟨less30Category, highRisk⟩)
    ∧ (pyUpper raw ∈ MORE30_SYNONYMS →
      normalizeOutcome raw = ⟨more30Category, mediumRisk⟩)
    ∧ ((normalizeOutcome raw).risk_level = undeterminedRisk ↔
      pyUpper raw ∉ ALL_SYNONYMS)
    ∧ ((normalizeOutcome raw).risk_level = undeterminedRisk →
      (normalizeOutcome raw).category = unknownFormatCategory raw) := by
  have hd12 : ∀ s ∈ NO_SYNONYMS, s ∉ LESS30_SYNONYMS := by decide
  have hd13 : ∀ s ∈ NO_SYNONYMS, s ∉ MORE30_SYNONYMS := by decide
  have hd23 : ∀ s ∈ LESS30_SYNONYMS, s ∉ MORE30_SYNONYMS := by decide
  have hall : ∀ s, s ∈ ALL_SYNONYMS ↔
      (s ∈ NO_SYNONYMS ∨ s ∈ LESS30_SYNONYMS ∨ s ∈ MORE30_SYNONYMS) := by
    intro s
    simp [ALL_SYNONYMS, List.mem_append, or_assoc]
  by_cases h1 : pyUpper raw ∈ NO_SYNONYMS
  · have e1 : NO_SYNONYMS.contains (pyUpper raw) = true := by simpa using h1
    have hno : normalizeOutcome raw = ⟨noReadmissionCategory, lowRisk⟩ := by
      simp only [normalizeOutcome, e1, if_true]
    refine ⟨fun _ => hno, fun h2 => absurd h2 (hd12 _ h1),
      fun h3 => absurd h3 (hd13 _ h1), ?_, ?_⟩
    · rw [hno]
      constructor
      · intro h; exact absurd h (by decide)
      · intro h; exact absurd ((hall _).mpr (Or.inl h1)) h
    · rw [hno]
      intro h; exact absurd h (by decide)
  · have e1 : NO_SYNONYMS.contains (pyUpper raw) = false := by simpa using h1
    by_cases h2 : pyUpper raw ∈ LESS30_SYNONYMS
    · have e2 : LESS30_SYNONYMS.contains (pyUpper raw) = true := by simpa using h2
      have hless : normalizeOutcome raw = ⟨less30Category, highRisk⟩ := by
        simp only [normalizeOutcome, e1, e2, Bool.false_eq_true, if_false, if_true]
      refine ⟨fun h => absurd h h1, fun _ => hless,
        fun h3 => absurd h3 (hd23 _ h2), ?_, ?_⟩
      · rw [hless]
        constructor
        · intro h; exact absurd h (by decide)
        · intro h; exact absurd ((hall _).mpr (Or.inr (Or.inl h2))) h
      · rw [hless]
        intro h; exact absurd h (by decide)
    · have e2 : LESS30_SYNONYMS.contains (pyUpper raw) = false := by simpa using h2
      by_cases h3 : pyUpper raw ∈ MORE30_SYNONYMS
      · have e3 : MORE30_SYNONYMS.contains (pyUpper raw) = true := by simpa using h3
        have hmore : normalizeOutcome raw = ⟨more30Category, mediumRisk⟩ := by
          simp only [normalizeOutcome, e1, e2, e3, Bool.false_eq_true, if_false, if_true]
        refine ⟨fun h => absurd h h1, fun h => absurd h h2, fun _ => hmore, ?_, ?_⟩
        · rw [hmore]
          constructor
          · intro h; exact absurd h (by decide)
          · intro h; exact absurd ((hall _).mpr (Or.inr (Or.inr h3))) h
        · rw [hmore]
          intro h; exact absurd h (by decide)
      · have e3 : MORE30_SYNONYMS.contains (pyUpper raw) = false := by simpa using h3
        have hun : normalizeOutcome raw =
            ⟨unknownFormatCategory raw, undeterminedRisk⟩ := by
          simp only [normalizeOutcome, e1, e2, e3, Bool.false_eq_true, if_false]
        refine ⟨fun h => absurd h h1, fun h => absurd h h2, fun h => absurd h h3, ?_, ?_⟩
        · rw [hun]
          constructor
          · intro _
            intro hmem
            rcases (hall _).mp hmem with h | h | h
            · exact h1 h
            · exact h2 h
            · exact h3 h
          · intro _; rfl
        · rw [hun]
          intro _; rfl

/-- Witness for C1: instantiated at the concrete labels `"no"` (low risk,
case-insensitively recognized) and `"maybe"` (undetermined with the raw
label embedded in the category). -/
theorem C1_outcome_normalizer_witness :
    normalizeOutcome "no" = ⟨noReadmissionCategory, lowRisk⟩
    ∧ (normalizeOutcome "maybe").risk_level = undeterminedRisk
    ∧ (normalizeOutcome "maybe").category = unknownFormatCategory "maybe" := by
  refine ⟨(C1_outcome_normalizer "no").1 (by decide), ?_, ?_⟩
  · exact ((C1_outcome_normalizer "maybe").2.2.2.1).mpr (by decide)
  · exact (C1_outcome_normalizer "maybe").2.2.2.2
      (((C1_outcome_normalizer "maybe").2.2.2.1).mpr (by decide))

/-! ### Tabular data model (pandas DataFrame, CSV upload, DB rows) -/

/-- One pandas cell: missing (`NaN`/`None`), an integer, a float
(modelled by `Rat`), or a string. -/
inductive Cell where
  | na : Cell
  | int (n : Int) : Cell
  | float (q : Rat) : Cell
  | str (s : String) : Cell
deriving DecidableEq

/-- One data-frame row: an association list from column name to cell. -/
def Row := List (String × Cell)

instance : DecidableEq Row := by
  unfold Row
  infer_instance

/-- `row[col]`: a column missing from the row reads as a missing value. -/
def lookupCell (r : Row) (c : String) : Cell :=
  (r.lookup c).getD Cell.na

/-- A pandas data frame: named columns plus rows. -/
structure Frame where
  cols : List String
  rows : List Row
deriving DecidableEq

/-- The ten serving features (`src/modeling/predict.py` lines 9-20). -/
def TOP10_FEATURES : List String :=
  ["number_inpatient", "number_diagnoses", "number_emergency", "number_outpatient",
   "time_in_hospital", "diag_1", "diag_2", "diag_3", "medical_specialty", "diabetesMed"]

/-- The upload-required columns: the ten features plus the target
(`src/api/routes/upload_data.py` lines 32-44, a separate literal list in
the source). -/
def REQUIRED_COLUMNS : List String :=
  ["number_inpatient", "number_diagnoses", "number_emergency", "number_outpatient",
   "time_in_hospital", "diag_1", "diag_2", "diag_3", "medical_specialty", "diabetesMed",
   "readmitted"]

/-- The five numeric feature columns (`src/data_processing/models.py`
lines 24-30; re-listed verbatim as `numerical_cols` in
`src/data_processing/database.py` line 65). -/
def NUMERICAL_FEATURES : List String :=
  ["number_inpatient", "number_diagnoses", "number_emergency", "number_outpatient",
   "time_in_hospital"]

/-- The five categorical feature columns (`src/data_processing/models.py`
lines 33-39; re-listed verbatim as `categorical_cols` in
`src/data_processing/database.py` line 75 and as `categorical_features`
in `src/modeling/predict.py` line 51). -/
def CATEGORICAL_FEATURES : List String :=
  ["diag_1", "diag_2", "diag_3", "medical_specialty", "diabetesMed"]

/-! ### Python scalar coercions -/

/-- Accumulating decimal-digit parser; any non-digit fails. -/
def parseDigitsAux : List Char → Nat → Option Nat
  | [], acc => some acc
  | c :: cs, acc =>
    if c.isDigit then parseDigitsAux cs (acc * 10 + (c.toNat - 48)) else none

/-- Python `int(str)`: strip whitespace, then parse an optionally signed
decimal digit string; anything else raises `ValueError` (`none`). -/
def pyParseInt (s : String) : Option Int :=
  match pyStripList s.data with
  | [] => none
  | c :: cs =>
    if c == Char.ofNat 45 then
      match cs with
      | [] => none
      | _ => (parseDigitsAux cs 0).map (fun n => -(n : Int))
    else if c == Char.ofNat 43 then
      match cs with
      | [] => none
      | _ => (parseDigitsAux cs 0).map (fun n => (n : Int))
    else (parseDigitsAux (c :: cs) 0).map (fun n => (n : Int))

/-- Python `int(float)` truncates toward zero. -/
def truncateRat (q : Rat) : Int :=
  if 0 ≤ q then ⌊q⌋ else ⌈q⌉

/-- Python `int(cell)`: `int(nan)` raises, integers pass through, floats
truncate toward zero, strings are parsed. `none` models the raised
`ValueError`/`TypeError`. -/
def pyInt : Cell → Option Int
  | Cell.na => none
  | Cell.int n => some n
  | Cell.float q => some (truncateRat q)
  | Cell.str s => pyParseInt s

/-- Python `str(cell)`: total; `str(nan)` is the string `"nan"`.
(The float branch is a model of Python float repr; no claim inspects it.) -/
def pyStr : Cell → String
  | Cell.na => "nan"
  | Cell.int n => toString n
  | Cell.float q => toString q
  | Cell.str s => s

/-! ### Ingestion validation (src/api/routes/upload_data.py lines 49-68) -/

/-- `set(REQUIRED_COLUMNS) - set(df.columns)`, represented as the sublist
of `REQUIRED_COLUMNS` of columns absent from the table. -/
def missingColumns (f : Frame) : List String :=
  REQUIRED_COLUMNS.filter (fun c => !f.cols.contains c)

/-- `df[REQUIRED_COLUMNS].isna().any(axis=1)` for one row. -/
def rowHasGap (r : Row) : Bool :=
  REQUIRED_COLUMNS.any (fun c => lookupCell r c == Cell.na)

/-- `missing_data.sum()`: the number of rows with a missing value in a
required column. -/
def rowsWithGaps (f : Frame) : Nat :=
  (f.rows.filter (fun r => rowHasGap r)).length

inductive ValidationError where
  | schemaError (missing : List String) : ValidationError
  | incompleteData (rowsWithMissing : Nat) : ValidationError
deriving DecidableEq

/-- `validate_data` (`src/api/routes/upload_data.py` lines 49-68):
presence check first, then completeness check; `none` means valid. -/
def validate_data (f : Frame) : Option ValidationError :=
  if missingColumns f ≠ [] then
    some (ValidationError.schemaError (missingColumns f))
  else if 0 < rowsWithGaps f then
    some (ValidationError.incompleteData (rowsWithGaps f))
  else
    none

/-! ### Persisted records -/

/-- The SQLAlchemy model `PatientTop10`
(`src/data_processing/models.py`): ten typed features plus the target. -/
structure PatientTop10 where
  number_inpatient : Int
  number_diagnoses : Int
  number_emergency : Int
  number_outpatient : Int
  time_in_hospital : Int
  diag_1 : String
  diag_2 : String
  diag_3 : String
  medical_specialty : String
  diabetesMed : String
  readmitted : String
deriving DecidableEq

/-- Building one `PatientTop10` from a row: `int(...)` on the five numeric
columns (first failure raises), `str(...)` on the six string columns
(`src/api/routes/upload_data.py` lines 103-115; identical construction in
`src/data_processing/database.py` lines 86-98). -/
def rowToRecord (r : Row) : Option PatientTop10 := do
  let ni ← pyInt (lookupCell r "number_inpatient")
  let nd ← pyInt (lookupCell r "number_diagnoses")
  let ne ← pyInt (lookupCell r "number_emergency")
  let no ← pyInt (lookupCell r "number_outpatient")
  let th ← pyInt (lookupCell r "time_in_hospital")
  some ⟨ni, nd, ne, no, th,
    pyStr (lookupCell r "diag_1"), pyStr (lookupCell r "diag_2"),
    pyStr (lookupCell r "diag_3"), pyStr (lookupCell r "medical_specialty"),
    pyStr (lookupCell r "diabetesMed"), pyStr (lookupCell r "readmitted")⟩

/-- The record-building loop over all rows; the first uncoercible row
raises out of the loop (`none`). -/
def buildRecords : List Row → Option (List PatientTop10)
  | [] => some []
  | r :: rs => do
    let p ← rowToRecord r
    let ps ← buildRecords rs
    some (p :: ps)

/-! ### Store seeding (src/data_processing/database.py lines 38-107) -/

/-- The cells of one column, row by row (`df[col]`). -/
def colCells (f : Frame) (c : String) : List Cell :=
  f.rows.map (fun r => lookupCell r c)

/-- `df.isna().sum().sum()`: total missing cells over the frame's own
columns. -/
def countNaFrame (f : Frame) : Nat :=
  (f.cols.map (fun c => (colCells f c).count Cell.na)).sum

/-- A cell's numeric value, when it has one. -/
def cellNum : Cell → Option Rat
  | Cell.int n => some (n : Rat)
  | Cell.float q => some q
  | _ => none

/-- The numeric values present in a column (pandas skips `NaN`). -/
def numCells (f : Frame) (c : String) : List Rat :=
  (colCells f c).filterMap cellNum

/-- Insertion into a sorted list of rationals. -/
def insertSorted (x : Rat) : List Rat → List Rat
  | [] => [x]
  | y :: ys => if x ≤ y then x :: y :: ys else y :: insertSorted x ys

/-- Insertion sort on rationals (used by the median model). -/
def sortRat : List Rat → List Rat
  | [] => []
  | x :: xs => insertSorted x (sortRat xs)

/-- `Series.median()` over the present values: middle of the sorted
values, or the mean of the two middles; `none` models the `NaN` median of
an all-missing column. -/
def pandasMedian (l : List Rat) : Option Rat :=
  let n := l.length
  let s := sortRat l
  if n = 0 then none
  else if n % 2 = 1 then some (s.getD (n / 2) 0)
  else some ((s.getD (n / 2 - 1) 0 + s.getD (n / 2) 0) / 2)

/-- A fixed linear order on cells, standing in for the value ordering
pandas uses to sort the modes before `.iloc[0]` picks the smallest. -/
def cellLe : Cell → Cell → Bool
  | Cell.na, _ => true
  | Cell.int _, Cell.na => false
  | Cell.int a, Cell.int b => a ≤ b
  | Cell.int _, _ => true
  | Cell.float _, Cell.na => false
  | Cell.float _, Cell.int _ => false
  | Cell.float a, Cell.float b => a ≤ b
  | Cell.float _, Cell.str _ => true
  | Cell.str a, Cell.str b => a ≤ b
  | Cell.str _, _ => false

/-- The most frequent present values of a column (`Series.mode()`). -/
def modeCandidates (l : List Cell) : List Cell :=
  let vs := l.filter (fun x => !(x == Cell.na))
  let maxCount := (vs.map (fun x => vs.count x)).foldl max 0
  vs.filter (fun x => vs.count x == maxCount)

/-- `Series.mode().iloc[0] if not Series.mode().empty else "Unknown"`:
the smallest among the most frequent present values; `none` when the
column has no present value. -/
def pandasModeCell (l : List Cell) : Option Cell :=
  match modeCandidates l with
  | [] => none
  | m :: ms => some (ms.foldl (fun acc x => if cellLe x acc then x else acc) m)

/-- Replace one binding of a row (used to model writing one cell). -/
def setCell (r : Row) (c : String) (v : Cell) : Row :=
  (c, v) :: r.filter (fun p => !(p.1 == c))

/-- `df[col] = df[col].fillna(value)`. -/
def fillColNa (f : Frame) (c : String) (v : Cell) : Frame :=
  { f with rows := f.rows.map (fun r =>
      if lookupCell r c == Cell.na then setCell r c v else r) }

/-- One iteration of the numeric-imputation loop
(`src/data_processing/database.py` lines 66-72): if the column exists and
has gaps, fill them with the column median.  A median of `NaN` (all
values missing) fills nothing, leaving the gaps in place. -/
def imputeNumericCol (f : Frame) (c : String) : Frame :=
  if f.cols.contains c then
    if 0 < (colCells f c).count Cell.na then
      match pandasMedian (numCells f c) with
      | some m => fillColNa f c (Cell.float m)
      | none => f
    else f
  else f

/-- One iteration of the categorical-imputation loop
(`src/data_processing/database.py` lines 76-82): fill gaps with the
column mode, or the literal `"Unknown"` when there is no mode. -/
def imputeCategoricalCol (f : Frame) (c : String) : Frame :=
  if f.cols.contains c then
    if 0 < (colCells f c).count Cell.na then
      fillColNa f c ((pandasModeCell (colCells f c)).getD (Cell.str "Unknown"))
    else f
  else f

/-- The imputation pass of `init_db`: run only when the frame has any
missing cell, first over the numeric columns, then over the categorical
columns (the target column `readmitted` is in neither list). -/
def imputeFrame (f : Frame) : Frame :=
  if 0 < countNaFrame f then
    CATEGORICAL_FEATURES.foldl imputeCategoricalCol
      (NUMERICAL_FEATURES.foldl imputeNumericCol f)
  else f

inductive SeedError where
  | coercionFailure : SeedError
deriving DecidableEq

/-- `init_db` (`src/data_processing/database.py` lines 38-107): when the
store holds zero records and the seed source exists, impute its gaps and
bulk-insert it; otherwise leave the store untouched.  A row the
imputed frame still cannot coerce raises (`ValueError` from `int(nan)`),
nothing is committed, and the store is unchanged. -/
def init_db (store : List PatientTop10) (seed : Option Frame) :
    Except SeedError (List PatientTop10) :=
  if store.length = 0 then
    match seed with
    | some f =>
      match buildRecords (imputeFrame f).rows with
      | some recs => Except.ok (store ++ recs)
      | none => Except.error SeedError.coercionFailure
    | none => Except.ok store
  else Except.ok store

/-! ### Upload route (src/api/routes/upload_data.py lines 71-136) -/

inductive UploadError where
  | emptyFile : UploadError
  | schemaError (missing : List String) : UploadError
  | incompleteData (rowsWithMissing : Nat) : UploadError
  | dbError : UploadError
  | unexpectedError : UploadError
deriving DecidableEq

/-- The success payload of the upload route (`rows_added`,
`total_rows_in_db`). -/
structure UploadSuccess where
  rows_added : Nat
  total_rows_in_db : Nat
deriving DecidableEq

/-- Recognizer for the incomplete-data (HTTP 400) error category. -/
def isIncompleteDataResult : Except UploadError UploadSuccess → Bool
  | Except.error (UploadError.incompleteData _) => true
  | _ => false

/-- The upload route (`src/api/routes/upload_data.py` lines 71-136),
returning the HTTP-level outcome together with the resulting store.
Order of operations as in the source: empty-file check, `validate_data`,
`init_db` (which may seed an empty store), record construction
(a coercion failure raises inside the DB block and is answered with the
500 DB error after rollback), then the bulk write - whose own failure,
modelled by `writeFails`, is also rolled back and answered with the 500
DB error. -/
def upload (store : List PatientTop10) (seed : Option Frame) (f : Frame)
    (writeFails : Bool) : Except UploadError UploadSuccess × List PatientTop10 :=
  if f.rows.isEmpty then (Except.error UploadError.emptyFile, store)
  else
    match validate_data f with
    | some (ValidationError.schemaError m) =>
      (Except.error (UploadError.schemaError m), store)
    | some (ValidationError.incompleteData n) =>
      (Except.error (UploadError.incompleteData n), store)
    | none =>
      match init_db store seed with
      | Except.error _ => (Except.error UploadError.unexpectedError, store)
      | Except.ok store1 =>
        match buildRecords f.rows with
        | none => (Except.error UploadError.dbError, store1)
        | some recs =>
          if writeFails then (Except.error UploadError.dbError, store1)
          else (Except.ok ⟨recs.length, (store1 ++ recs).length⟩, store1 ++ recs)

instance {ε α : Type} [DecidableEq ε] [DecidableEq α] : DecidableEq (Except ε α) :=
  fun x y =>
    match x, y with
    | Except.ok a, Except.ok b =>
      if h : a = b then isTrue (by rw [h]) else
        isFalse (fun he => h (by cases he; rfl))
    | Except.error a, Except.error b =>
      if h : a = b then isTrue (by rw [h]) else
        isFalse (fun he => h (by cases he; rfl))
    | Except.ok _, Except.error _ => isFalse (fun he => by cases he)
    | Except.error _, Except.ok _ => isFalse (fun he => by cases he)

/-! ### Helper lemmas about the ingestion pipeline -/

theorem buildRecords_some {rows : List Row}
    (h : ∀ r ∈ rows, (rowToRecord r).isSome = true) :
    ∃ l, buildRecords rows = some l ∧ l.length = rows.length := by
  induction rows with
  | nil => exact ⟨[], rfl, rfl⟩
  | cons r rs ih =>
    obtain ⟨p, hp⟩ := Option.isSome_iff_exists.mp (h r (by simp))
    obtain ⟨l, hl, hlen⟩ := ih (fun x hx => h x (by simp [hx]))
    exact ⟨p :: l, by simp [buildRecords, hp, hl], by simp [hlen]⟩

theorem buildRecords_none {rows : List Row}
    (h : ∃ r ∈ rows, rowToRecord r = none) :
    buildRecords rows = none := by
  induction rows with
  | nil => simp at h
  | cons r rs ih =>
    obtain ⟨x, hx, hnone⟩ := h
    rcases List.mem_cons.mp hx with hEq | hmem
    · subst hEq
      simp [buildRecords, hnone]
    · cases hrec : rowToRecord r with
      | none => simp [buildRecords, hrec]
      | some p => simp [buildRecords, hrec, ih ⟨x, hmem, hnone⟩]

theorem missingColumns_eq_nil {f : Frame}
    (h : ∀ c ∈ REQUIRED_COLUMNS, f.cols.contains c = true) :
    missingColumns f = [] := by
  simp only [missingColumns, List.filter_eq_nil_iff]
  intro c hc
  have := h c hc
  simpa using this

theorem rowsWithGaps_eq_zero {f : Frame}
    (h : ∀ r ∈ f.rows, rowHasGap r = false) :
    rowsWithGaps f = 0 := by
  simp only [rowsWithGaps, List.length_eq_zero, List.filter_eq_nil_iff]
  intro r hr
  simp [h r hr]

theorem validate_data_eq_none {f : Frame}
    (h1 : missingColumns f = []) (h2 : rowsWithGaps f = 0) :
    validate_data f = none := by
  simp [validate_data, h1, h2]

theorem rows_isEmpty_false {f : Frame} (h : f.rows ≠ []) :
    f.rows.isEmpty = false := by
  cases hr : f.rows with
  | nil => exact absurd hr h
  | cons a l => rfl

end Diabetes

namespace Diabetes

/-- A complete upload/seed row with the given numeric and string values,
in the source's column order. -/
def sampleRow (ni nd ne no th : Int) (d1 d2 d3 ms dm rd : String) : Row :=
  [("number_inpatient", Cell.int ni), ("number_diagnoses", Cell.int nd),
   ("number_emergency", Cell.int ne), ("number_outpatient", Cell.int no),
   ("time_in_hospital", Cell.int th), ("diag_1", Cell.str d1), ("diag_2", Cell.str d2),
   ("diag_3", Cell.str d3), ("medical_specialty", Cell.str ms), ("diabetesMed", Cell.str dm),
   ("readmitted", Cell.str rd)]

/-- A one-row seed source used by the C2 counterexample. -/
def c2SeedFrame : Frame :=
  ⟨REQUIRED_COLUMNS, [sampleRow 1 5 0 2 3 "250.83" "250.01" "Unknown" "Cardiology" "Yes" "NO"]⟩

/-- A fully valid one-row batch used by the C2 counterexample. -/
def c2BatchFrame : Frame :=
  ⟨REQUIRED_COLUMNS, [sampleRow 0 7 1 0 4 "428" "276" "Unknown" "InternalMedicine" "No" "<30"]⟩

/-- C2 counterexample: against an empty store with a one-row seed source
present, uploading a fully valid one-row batch succeeds and reports
`rows_added = 1`, but the store row count rises from 0 to 2 (the route's
`init_db` call seeds the store first), so the count does not increase by
exactly the input row count. -/
theorem C2_counterexample :
    (upload [] (some c2SeedFrame) c2BatchFrame false).1 = Except.ok ⟨1, 2⟩
    ∧ (upload [] (some c2SeedFrame) c2BatchFrame false).2.length ≠
        ([] : List PatientTop10).length + c2BatchFrame.rows.length := by
  decide

/-- C2 (amended): provided the batch is non-empty and store initialization
leaves the store unchanged (the store is already non-empty, or no seed
source exists, or the seed is already loaded), uploading a batch with all
required columns, no gaps, and fully coercible values succeeds, reports
exactly `N = f.rows.length` rows added, and grows the store by exactly
`N`; and if the bulk write fails, the transaction rolls back and the
store is unchanged. -/
theorem C2_upload_success_and_rollback (store : List PatientTop10)
    (seed : Option Frame) (f : Frame)
    (hrows : f.rows ≠ [])
    (hcols : ∀ c ∈ REQUIRED_COLUMNS, f.cols.contains c = true)
    (hgaps : ∀ r ∈ f.rows, rowHasGap r = false)
    (hcoerce : ∀ r ∈ f.rows, (rowToRecord r).isSome = true)
    (hinit : init_db store seed = Except.ok store) :
    (upload store seed f false).1 =
      Except.ok ⟨f.rows.length, store.length + f.rows.length⟩
    ∧ (upload store seed f false).2.length = store.length + f.rows.length
    ∧ upload store seed f true = (Except.error UploadError.dbError, store) := by
  have hempty := rows_isEmpty_false hrows
  have hval := validate_data_eq_none (missingColumns_eq_nil hcols)
    (rowsWithGaps_eq_zero hgaps)
  obtain ⟨recs, hbr, hlen⟩ := buildRecords_some hcoerce
  refine ⟨?_, ?_, ?_⟩
  · simp [upload, hempty, hval, hinit, hbr, hlen]
  · simp [upload, hempty, hval, hinit, hbr, hlen]
  · simp [upload, hempty, hval, hinit, hbr]

/-- Witness for C2: a concrete singleton store, no seed source, and a
valid one-row batch; success reports one row added and a final count of
two, and a failing bulk write leaves the store at the original single
record. -/
theorem C2_upload_success_and_rollback_witness :
    (upload [⟨1, 5, 0, 2, 3, "250.83", "250.01", "Unknown", "Cardiology", "Yes", "NO"⟩]
        none ⟨REQUIRED_COLUMNS, [sampleRow 0 7 1 0 4 "428" "276" "Unknown" "Surgery" "No" ">30"]⟩
        false).1 = Except.ok ⟨1, 2⟩
    ∧ (upload [⟨1, 5, 0, 2, 3, "250.83", "250.01", "Unknown", "Cardiology", "Yes", "NO"⟩]
        none ⟨REQUIRED_COLUMNS, [sampleRow 0 7 1 0 4 "428" "276" "Unknown" "Surgery" "No" ">30"]⟩
        false).2.length = 2
    ∧ upload [⟨1, 5, 0, 2, 3, "250.83", "250.01", "Unknown", "Cardiology", "Yes", "NO"⟩]
        none ⟨REQUIRED_COLUMNS, [sampleRow 0 7 1 0 4 "428" "276" "Unknown" "Surgery" "No" ">30"]⟩
        true = (Except.error UploadError.dbError,
          [⟨1, 5, 0, 2, 3, "250.83", "250.01", "Unknown", "Cardiology", "Yes", "NO"⟩]) := by
  exact C2_upload_success_and_rollback _ none _
    (by decide) (by decide) (by decide) (by decide) (by decide)

/-- C3: a batch whose columns are all present but in which `M > 0` rows
have a missing required value is rejected in full with the
incomplete-data client error surfacing exactly `M`, and the store -
whatever its contents - is returned unchanged (validation runs before any
store access). -/
theorem C3_upload_incomplete_rejected (store : List PatientTop10)
    (seed : Option Frame) (f : Frame) (writeFails : Bool)
    (hcols : ∀ c ∈ REQUIRED_COLUMNS, f.cols.contains c = true)
    (hM : 0 < rowsWithGaps f) :
    upload store seed f writeFails =
      (Except.error (UploadError.incompleteData (rowsWithGaps f)), store) := by
  have hrows : f.rows ≠ [] := by
    intro h
    rw [rowsWithGaps, h] at hM
    simp at hM
  have hempty := rows_isEmpty_false hrows
  have hmc := missingColumns_eq_nil hcols
  have hval : validate_data f =
      some (ValidationError.incompleteData (rowsWithGaps f)) := by
    simp [validate_data, hmc, hM]
  simp [upload, hempty, hval]

/-- Witness for C3: a two-row batch with one gappy row (missing
`time_in_hospital`) is rejected with a surfaced count of 1 and the
store is unchanged. -/
theorem C3_upload_incomplete_rejected_witness :
    upload [] none ⟨REQUIRED_COLUMNS,
        [sampleRow 1 9 0 0 2 "250" "401" "Unknown" "Nephrology" "Yes" "NO",
         [("number_inpatient", Cell.int 1), ("number_diagnoses", Cell.int 5),
          ("number_emergency", Cell.int 0), ("number_outpatient", Cell.int 0),
          ("time_in_hospital", Cell.na), ("diag_1", Cell.str "428"),
          ("diag_2", Cell.str "276"), ("diag_3", Cell.str "Unknown"),
          ("medical_specialty", Cell.str "Cardiology"), ("diabetesMed", Cell.str "No"),
          ("readmitted", Cell.str ">30")]]⟩ false =
      (Except.error (UploadError.incompleteData 1), []) := by
  exact C3_upload_incomplete_rejected [] none _ false (by decide) (by decide)

/-- C4 counterexample: a zero-row table that lacks the
`medical_specialty` column is answered with the empty-file error, not
with a schema error carrying `medical_specialty` (the route checks
`df.empty` before validating the schema). -/
theorem C4_counterexample :
    upload [] none ⟨["number_inpatient", "number_diagnoses", "number_emergency",
        "number_outpatient", "time_in_hospital", "diag_1", "diag_2", "diag_3",
        "diabetesMed", "readmitted"], []⟩ false =
      (Except.error UploadError.emptyFile, [])
    ∧ UploadError.emptyFile ≠ UploadError.schemaError ["medical_specialty"] := by
  decide

/-- C4 (amended): every table with at least one data row that lacks at
least one required column is rejected as a whole with a schema error
surfacing exactly the missing column names, and the store is returned
unchanged (a table with no data rows is instead rejected by the earlier
empty-file check). -/
theorem C4_upload_schema_error (store : List PatientTop10)
    (seed : Option Frame) (f : Frame) (writeFails : Bool)
    (hrows : f.rows ≠ [])
    (hmc : missingColumns f ≠ []) :
    upload store seed f writeFails =
      (Except.error (UploadError.schemaError (missingColumns f)), store) := by
  have hempty := rows_isEmpty_false hrows
  have hval : validate_data f =
      some (ValidationError.schemaError (missingColumns f)) := by
    simp [validate_data, hmc]
  simp [upload, hempty, hval]

/-- Witness for C4: a one-row batch missing only `medical_specialty` is
rejected with `missing_columns` containing exactly `medical_specialty`
(concrete scenario B). -/
theorem C4_upload_schema_error_witness :
    upload [] none ⟨["number_inpatient", "number_diagnoses", "number_emergency",
        "number_outpatient", "time_in_hospital", "diag_1", "diag_2", "diag_3",
        "diabetesMed", "readmitted"],
        [[("number_inpatient", Cell.int 1), ("readmitted", Cell.str "NO")]]⟩ false =
      (Except.error (UploadError.schemaError ["medical_specialty"]), []) := by
  exact C4_upload_schema_error [] none _ false (by decide) (by decide)

/-- C5 counterexample: a batch with all required columns present, no
missing values, but a non-numeric string in the numeric column
`number_inpatient` fails with the 500 database error, not with the
incomplete-data (400) category a missing value gets. -/
theorem C5_counterexample :
    upload [] none ⟨REQUIRED_COLUMNS,
        [sampleRow 1 5 0 2 3 "250" "401" "Unknown" "Cardiology" "Yes" "NO",
         [("number_inpatient", Cell.str "abc"), ("number_diagnoses", Cell.int 5),
          ("number_emergency", Cell.int 0), ("number_outpatient", Cell.int 0),
          ("time_in_hospital", Cell.int 2), ("diag_1", Cell.str "428"),
          ("diag_2", Cell.str "276"), ("diag_3", Cell.str "Unknown"),
          ("medical_specialty", Cell.str "Cardiology"), ("diabetesMed", Cell.str "No"),
          ("readmitted", Cell.str ">30")]]⟩ false =
      (Except.error UploadError.dbError, [])
    ∧ isIncompleteDataResult (Except.error UploadError.dbError) = false := by
  decide

/-- C5 (amended): a batch with all required columns, no missing values,
but some value in a numeric required column that cannot be cast to
integer makes the upload fail with the generic 500 database-write error
(the `ValueError` from `int(...)` is raised inside the DB block and
caught by its handler), not with the 400 incomplete-data category; the
transaction is rolled back and, provided store initialization leaves the
store unchanged, no records at all are persisted. -/
theorem C5_upload_uncoercible (store : List PatientTop10)
    (seed : Option Frame) (f : Frame) (writeFails : Bool)
    (hcols : ∀ c ∈ REQUIRED_COLUMNS, f.cols.contains c = true)
    (hgaps : ∀ r ∈ f.rows, rowHasGap r = false)
    (hbad : ∃ r ∈ f.rows, rowToRecord r = none)
    (hinit : init_db store seed = Except.ok store) :
    upload store seed f writeFails = (Except.error UploadError.dbError, store) := by
  have hrows : f.rows ≠ [] := by
    intro h
    obtain ⟨r, hr, _⟩ := hbad
    rw [h] at hr
    simp at hr
  have hempty := rows_isEmpty_false hrows
  have hval := validate_data_eq_none (missingColumns_eq_nil hcols)
    (rowsWithGaps_eq_zero hgaps)
  have hbr := buildRecords_none hbad
  simp [upload, hempty, hval, hinit, hbr]

/-- Witness for C5: a singleton store, no seed source, and a one-row
batch whose `time_in_hospital` holds the string `"four"`; the upload
answers with the database error and the store keeps its single record. -/
theorem C5_upload_uncoercible_witness :
    upload [⟨0, 9, 0, 0, 6, "414", "411", "Unknown", "Unknown", "Yes", ">30"⟩] none
        ⟨REQUIRED_COLUMNS,
         [[("number_inpatient", Cell.int 1), ("number_diagnoses", Cell.int 5),
           ("number_emergency", Cell.int 0), ("number_outpatient", Cell.int 0),
           ("time_in_hospital", Cell.str "four"), ("diag_1", Cell.str "428"),
           ("diag_2", Cell.str "276"), ("diag_3", Cell.str "Unknown"),
           ("medical_specialty", Cell.str "Cardiology"), ("diabetesMed", Cell.str "No"),
           ("readmitted", Cell.str ">30")]]⟩ true =
      (Except.error UploadError.dbError,
       [⟨0, 9, 0, 0, 6, "414", "411", "Unknown", "Unknown", "Yes", ">30"⟩]) := by
  exact C5_upload_uncoercible _ none _ true (by decide) (by decide)
    (by decide) (by decide)

/-! ### Inference engine (src/modeling/predict.py lines 36-96) -/

/-- A raw JSON value arriving in the request body (numbers or strings). -/
inductive PyVal where
  | vstr (s : String) : PyVal
  | vint (n : Int) : PyVal
  | vfloat (q : Rat) : PyVal
deriving DecidableEq

/-- Python `str(...)` on a raw value. -/
def pyStrOfVal : PyVal → String
  | PyVal.vstr s => s
  | PyVal.vint n => toString n
  | PyVal.vfloat q => toString q

/-- Parse an optionally signed decimal string with an optional fractional
part (the float grammar `pd.to_numeric` accepts, modulo exponents). -/
def parseRatAux : List Char → Option Rat
  | l =>
    match l.span (fun c => c.isDigit) with
    | (intPart, rest) =>
      match rest with
      | [] =>
        match intPart with
        | [] => none
        | _ => (parseDigitsAux intPart 0).map (fun n => (n : Rat))
      | c :: fracPart =>
        if c == Char.ofNat 46 then
          if fracPart.all (fun d => d.isDigit) ∧ (intPart ≠ [] ∨ fracPart ≠ []) then
            match parseDigitsAux intPart 0, parseDigitsAux fracPart 0 with
            | some ip, some fp =>
              some ((ip : Rat) + (fp : Rat) / ((10 : Rat) ^ fracPart.length))
            | some ip, none => some ((ip : Rat))
            | none, some fp =>
              some ((fp : Rat) / ((10 : Rat) ^ fracPart.length))
            | none, none => none
          else none
        else none

/-- Numeric parsing of a string, as `pd.to_numeric` would attempt. -/
def pyParseRat (s : String) : Option Rat :=
  match pyStripList s.data with
  | [] => none
  | c :: cs =>
    if c == Char.ofNat 45 then (parseRatAux cs).map (fun q => -q)
    else if c == Char.ofNat 43 then parseRatAux cs
    else parseRatAux (c :: cs)

/-- `pd.to_numeric(x, errors='coerce')` on one raw value: an unparseable
value becomes the `NaN` sentinel (`none`) instead of raising. -/
def toNumericCoerce : PyVal → Option Rat
  | PyVal.vint n => some (n : Rat)
  | PyVal.vfloat q => some q
  | PyVal.vstr s => pyParseRat s

/-- One coerced feature as handed to the artifact: categorical features
as strings, numeric features as numbers or the `NaN` sentinel. -/
inductive CoercedVal where
  | catv (s : String) : CoercedVal
  | numv (q : Option Rat) : CoercedVal
deriving DecidableEq

/-- Per-feature coercion (`src/modeling/predict.py` lines 50-60): the
five categorical features through `str`, the rest through
`pd.to_numeric(..., errors='coerce')`. -/
def coerceFeature (name : String) (v : PyVal) : CoercedVal :=
  if CATEGORICAL_FEATURES.contains name then CoercedVal.catv (pyStrOfVal v)
  else CoercedVal.numv (toNumericCoerce v)

/-- The single-row feature frame `df[TOP10_FEATURES]` after coercion,
in schema order. -/
def projectFeatures (data : List (String × PyVal)) : List CoercedVal :=
  TOP10_FEATURES.map (fun n =>
    coerceFeature n ((data.lookup n).getD (PyVal.vstr "")))

/-- The opaque predictive artifact's label output: a 0-d array scalar, a
1-d array, a Python list/tuple, or a bare scalar. -/
inductive PredOut where
  | ndarray0 (v : PyVal) : PredOut
  | ndarray1 (vs : List PyVal) : PredOut
  | pylist (vs : List PyVal) : PredOut
  | plain (v : PyVal) : PredOut
deriving DecidableEq

/-- The artifact's probability output: a 1-d vector, a 2-d samples-by-
classes array, a nested Python list, a flat Python list, or a scalar. -/
inductive ProbOut where
  | ndarray1 (ps : List Rat) : ProbOut
  | ndarray2 (rows : List (List Rat)) : ProbOut
  | plistNested (rows : List (List Rat)) : ProbOut
  | plistFlat (ps : List Rat) : ProbOut
  | scalar (q : Rat) : ProbOut
deriving DecidableEq

/-- The black-box predictive artifact: `predict` and `predict_proba`
over the coerced single-row frame. -/
structure Artifact where
  predict : List CoercedVal → PredOut
  predictProba : List CoercedVal → ProbOut

inductive EngineError where
  | keyMissing : EngineError
  | emptySequence : EngineError
deriving DecidableEq

/-- Label extraction (`src/modeling/predict.py` lines 67-75): a 0-d array
gives its item, arrays and lists give element 0 (raising on empty), a
bare scalar passes through; it is then stringified. -/
def extractPredStr : PredOut → Except EngineError String
  | PredOut.ndarray0 v => Except.ok (pyStrOfVal v)
  | PredOut.ndarray1 vs =>
    match vs.head? with
    | some v => Except.ok (pyStrOfVal v)
    | none => Except.error EngineError.emptySequence
  | PredOut.pylist vs =>
    match vs.head? with
    | some v => Except.ok (pyStrOfVal v)
    | none => Except.error EngineError.emptySequence
  | PredOut.plain v => Except.ok (pyStrOfVal v)

/-- `np.max` / built-in `max`: raises on an empty sequence. -/
def seqMax (l : List Rat) : Except EngineError Rat :=
  match l with
  | [] => Except.error EngineError.emptySequence
  | x :: xs => Except.ok (xs.foldl max x)

/-- Probability extraction (`src/modeling/predict.py` lines 83-94):
a 1-d array's max; a 2-d array's first row's max; for lists, the first
element's max when it is list-like, otherwise the flat max; a scalar
passes through `float`. -/
def extractProb : ProbOut → Except EngineError Rat
  | ProbOut.ndarray1 ps => seqMax ps
  | ProbOut.ndarray2 rows =>
    match rows.head? with
    | some r0 => seqMax r0
    | none => Except.error EngineError.emptySequence
  | ProbOut.plistNested rows =>
    match rows.head? with
    | some r0 => seqMax r0
    | none => Except.error EngineError.emptySequence
  | ProbOut.plistFlat ps => seqMax ps
  | ProbOut.scalar q => Except.ok q

/-- The vector whose maximum the code reports as the probability, when
the artifact returned a per-class vector. -/
def probVecOf : ProbOut → Option (List Rat)
  | ProbOut.ndarray1 ps => some ps
  | ProbOut.ndarray2 (r0 :: _) => some r0
  | ProbOut.ndarray2 [] => none
  | ProbOut.plistNested (r0 :: _) => some r0
  | ProbOut.plistNested [] => none
  | ProbOut.plistFlat ps => some ps
  | ProbOut.scalar _ => none

/-- The engine's ephemeral result `{"prediction": ..., "probability": ...}`. -/
structure PredictResult where
  prediction : String
  probability : Rat
deriving DecidableEq

/-- `predict_one` (`src/modeling/predict.py` lines 36-96): project the
input down to the ten schema features (`df[TOP10_FEATURES]` raises
`KeyError` when one is absent), coerce per schema, call the artifact,
clean the label and take the maximal probability. -/
def predict_one (a : Artifact) (data : List (String × PyVal)) :
    Except EngineError PredictResult :=
  if TOP10_FEATURES.all (fun n => (data.lookup n).isSome) then
    let feats := projectFeatures data
    match extractPredStr (a.predict feats), extractProb (a.predictProba feats) with
    | Except.ok p, Except.ok pr => Except.ok ⟨cleanLabel p, pr⟩
    | Except.error e, _ => Except.error e
    | Except.ok _, Except.error e => Except.error e
  else Except.error EngineError.keyMissing

/-! ### Rounding (Python round: banker's rounding on exact values) -/

/-- Round-half-to-even to an integer, the tie rule of Python `round`. -/
def roundHalfEven (q : Rat) : Int :=
  if q - (⌊q⌋ : Rat) < 1/2 then ⌊q⌋
  else if 1/2 < q - (⌊q⌋ : Rat) then ⌊q⌋ + 1
  else if ⌊q⌋ % 2 = 0 then ⌊q⌋ else ⌊q⌋ + 1

/-- Python `round(q, nd)` on exact values. -/
def pyRound (q : Rat) (nd : Nat) : Rat :=
  (roundHalfEven (q * (10 : Rat) ^ nd) : Rat) / (10 : Rat) ^ nd

/-! ### Prediction route (src/api/routes/predict.py lines 13-90) -/

inductive RouteError where
  | missingFeatures (names : List String) : RouteError
  | engineFailure : RouteError
deriving DecidableEq

/-- The route's success payload (`status`/`message` fields are mechanical
formatting of these four and are omitted). -/
structure RouteResponse where
  prediction : String
  prediction_category : String
  risk_level : String
  probability : Rat
deriving DecidableEq

/-- `predict_route` (`src/api/routes/predict.py` lines 13-90): reject
with a 400 naming the absent features when any of the ten is missing
(`set(TOP10_FEATURES) - set(data.keys())`, represented in schema order);
otherwise run the engine, clean the label again, normalize the outcome
and round the probability to four digits. -/
def predict_route (a : Artifact) (data : List (String × PyVal)) :
    Except RouteError RouteResponse :=
  let missing := TOP10_FEATURES.filter (fun n => (data.lookup n).isNone)
  if missing ≠ [] then Except.error (RouteError.missingFeatures missing)
  else
    match predict_one a data with
    | Except.error _ => Except.error RouteError.engineFailure
    | Except.ok res =>
      let ps := cleanLabel res.prediction
      let o := normalizeOutcome ps
      Except.ok ⟨ps, o.category, o.risk_level, pyRound res.probability 4⟩

/-! ### Helper lemmas for the inference engine -/

theorem list_all_congr {α : Type} {l : List α} {p q : α → Bool}
    (h : ∀ x ∈ l, p x = q x) : l.all p = l.all q := by
  induction l with
  | nil => rfl
  | cons x xs ih =>
    simp only [List.all_cons]
    rw [h x (by simp), ih (fun y hy => h y (by simp [hy]))]

theorem list_map_congr {α β : Type} {l : List α} {p q : α → β}
    (h : ∀ x ∈ l, p x = q x) : l.map p = l.map q := by
  induction l with
  | nil => rfl
  | cons x xs ih =>
    simp only [List.map_cons]
    rw [h x (by simp), ih (fun y hy => h y (by simp [hy]))]

theorem mem_pyStripList {c : Char} {l : List Char} (h : c ∈ pyStripList l) : c ∈ l := by
  simp only [pyStripList, List.mem_reverse] at h
  have h1 := (List.dropWhile_sublist _).mem h
  rw [List.mem_reverse] at h1
  exact (List.dropWhile_sublist _).mem h1

theorem cleanLabel_no_junk (s : String) :
    ∀ c ∈ (cleanLabel s).data, isJunkChar c = false := by
  intro c hc
  have h1 : c ∈ (removeJunk (pyStrip s)).data := mem_pyStripList hc
  simp only [removeJunk, List.mem_filter] at h1
  have := h1.2
  simpa using this

theorem foldl_max_mem : ∀ (xs : List Rat) (x : Rat), xs.foldl max x ∈ x :: xs := by
  intro xs
  induction xs with
  | nil => intro x; simp [List.foldl]
  | cons z zs ih =>
    intro x
    rw [List.foldl_cons]
    rcases List.mem_cons.mp (ih (max x z)) with h | h
    · rcases max_choice x z with hx | hz
      · rw [h, hx]; exact List.mem_cons_self _ _
      · rw [h, hz]; exact List.mem_cons_of_mem _ (List.mem_cons_self _ _)
    · exact List.mem_cons_of_mem _ (List.mem_cons_of_mem _ h)

theorem le_foldl_max : ∀ (xs : List Rat) (x y : Rat), y ∈ x :: xs → y ≤ xs.foldl max x := by
  intro xs
  induction xs with
  | nil =>
    intro x y hy
    rcases List.mem_cons.mp hy with h | h
    · rw [h, List.foldl_nil]
    · simp at h
  | cons z zs ih =>
    intro x y hy
    rw [List.foldl_cons]
    rcases List.mem_cons.mp hy with h | h
    · calc y = x := h
        _ ≤ max x z := le_max_left x z
        _ ≤ zs.foldl max (max x z) := ih (max x z) _ (List.mem_cons_self _ _)
    · rcases List.mem_cons.mp h with h2 | h2
      · calc y = z := h2
          _ ≤ max x z := le_max_right x z
          _ ≤ zs.foldl max (max x z) := ih (max x z) _ (List.mem_cons_self _ _)
      · exact ih (max x z) y (List.mem_cons_of_mem _ h2)

theorem seqMax_spec {l : List Rat} {m : Rat} (h : seqMax l = Except.ok m) :
    m ∈ l ∧ ∀ y ∈ l, y ≤ m := by
  cases l with
  | nil => exact absurd h (by simp [seqMax])
  | cons x xs =>
    have hm : m = xs.foldl max x := by
      simpa [seqMax] using h.symm
    subst hm
    exact ⟨foldl_max_mem xs x, fun y hy => le_foldl_max xs x y hy⟩

end Diabetes

namespace Diabetes

/-- C6: an inference request lacking any of the ten required features is
rejected - for every artifact, so no prediction is attempted - with a
client error naming exactly the absent features; and the engine's result
depends only on the ten required features, so extra keys are ignored
(the input is projected down to the required set before use). -/
theorem C6_required_features (a : Artifact) (data : List (String × PyVal)) :
    (TOP10_FEATURES.filter (fun n => (data.lookup n).isNone) ≠ [] →
      ∀ a2 : Artifact, predict_route a2 data =
        Except.error (RouteError.missingFeatures
          (TOP10_FEATURES.filter (fun n => (data.lookup n).isNone))))
    ∧ (∀ data2 : List (String × PyVal),
        (∀ n ∈ TOP10_FEATURES, data2.lookup n = data.lookup n) →
        predict_one a data2 = predict_one a data) := by
  constructor
  · intro h a2
    simp only [predict_route]
    rw [if_pos h]
  · intro data2 hagree
    have hall : TOP10_FEATURES.all (fun n => (data2.lookup n).isSome) =
        TOP10_FEATURES.all (fun n => (data.lookup n).isSome) := by
      apply list_all_congr
      intro n hn
      rw [hagree n hn]
    have hproj : projectFeatures data2 = projectFeatures data := by
      apply list_map_congr
      intro n hn
      rw [hagree n hn]
    simp only [predict_one, projectFeatures] at *
    rw [hall, hproj]

/-- A constant artifact used only to instantiate C6. -/
def c6Artifact : Artifact :=
  ⟨fun _ => PredOut.ndarray1 [PyVal.vstr "NO"],
   fun _ => ProbOut.ndarray2 [[1/4, 3/4]]⟩

/-- A complete ten-feature request body used only to instantiate C6. -/
def c6FullData : List (String × PyVal) :=
  [("number_inpatient", PyVal.vint 1), ("number_diagnoses", PyVal.vint 5),
   ("number_emergency", PyVal.vint 0), ("number_outpatient", PyVal.vint 2),
   ("time_in_hospital", PyVal.vint 5), ("diag_1", PyVal.vstr "250.83"),
   ("diag_2", PyVal.vstr "250.01"), ("diag_3", PyVal.vstr "Unknown"),
   ("medical_specialty", PyVal.vstr "Cardiology"), ("diabetesMed", PyVal.vstr "Yes")]

/-- Witness for C6: the empty request body is rejected naming all ten
features, and adding an extra key to a complete body does not change the
engine's result. -/
theorem C6_required_features_witness :
    predict_route c6Artifact [] =
      Except.error (RouteError.missingFeatures TOP10_FEATURES)
    ∧ predict_one c6Artifact (c6FullData ++ [("patient_nbr", PyVal.vint 777)]) =
      predict_one c6Artifact c6FullData := by
  constructor
  · exact (C6_required_features c6Artifact []).1 (by decide) c6Artifact
  · exact (C6_required_features c6Artifact c6FullData).2
      (c6FullData ++ [("patient_nbr", PyVal.vint 777)]) (by decide)

/-- C7: whenever the engine returns a result, the predicted label is a
plain string containing no bracket and no quote character (for every
artifact output shape), and the probability is the maximum entry of the
per-class vector the artifact returned, lying in `[0, 1]` whenever that
vector is a probability vector (entries nonnegative, summing to 1). -/
theorem C7_engine_output_normalization (a : Artifact) (data : List (String × PyVal))
    (res : PredictResult) (hok : predict_one a data = Except.ok res) :
    (∀ c ∈ res.prediction.data, isJunkChar c = false)
    ∧ (∀ ps, probVecOf (a.predictProba (projectFeatures data)) = some ps →
        (res.probability ∈ ps ∧ ∀ y ∈ ps, y ≤ res.probability)
        ∧ ((∀ y ∈ ps, 0 ≤ y) → ps.sum = 1 →
            0 ≤ res.probability ∧ res.probability ≤ 1)) := by
  simp only [predict_one] at hok
  by_cases hall : TOP10_FEATURES.all (fun n => (data.lookup n).isSome) = true
  · rw [if_pos hall] at hok
    cases hp : extractPredStr (a.predict (projectFeatures data)) with
    | error e => rw [hp] at hok; simp at hok
    | ok p =>
      cases hq : extractProb (a.predictProba (projectFeatures data)) with
      | error e => rw [hp, hq] at hok; simp at hok
      | ok pr =>
        rw [hp, hq] at hok
        simp only [Except.ok.injEq] at hok
        have hres : res = ⟨cleanLabel p, pr⟩ := hok.symm
        subst hres
        constructor
        · exact cleanLabel_no_junk p
        · intro ps hps
          have hmax : seqMax ps = Except.ok pr := by
            cases hpo : a.predictProba (projectFeatures data) with
            | ndarray1 l =>
              rw [hpo] at hps hq
              simp only [probVecOf, Option.some.injEq] at hps
              subst hps
              simpa [extractProb] using hq
            | ndarray2 rows =>
              rw [hpo] at hps hq
              cases rows with
              | nil => simp [probVecOf] at hps
              | cons r0 rest =>
                simp only [probVecOf, Option.some.injEq] at hps
                subst hps
                simpa [extractProb] using hq
            | plistNested rows =>
              rw [hpo] at hps hq
              cases rows with
              | nil => simp [probVecOf] at hps
              | cons r0 rest =>
                simp only [probVecOf, Option.some.injEq] at hps
                subst hps
                simpa [extractProb] using hq
            | plistFlat l =>
              rw [hpo] at hps hq
              simp only [probVecOf, Option.some.injEq] at hps
              subst hps
              simpa [extractProb] using hq
            | scalar q =>
              rw [hpo] at hps
              simp [probVecOf] at hps
          obtain ⟨hmem, hub⟩ := seqMax_spec hmax
          refine ⟨⟨hmem, hub⟩, fun hnn hsum => ⟨hnn _ hmem, ?_⟩⟩
          calc pr ≤ ps.sum := List.single_le_sum hnn _ hmem
            _ = 1 := hsum
  · rw [if_neg hall] at hok
    simp at hok

/-- The artifact used only to instantiate C7: a bracketed list-repr label
and a three-class probability vector. -/
def c7Artifact : Artifact :=
  ⟨fun _ => PredOut.pylist [PyVal.vstr "[<30]"],
   fun _ => ProbOut.ndarray1 [0, 0, 1]⟩

/-- The complete request body used only to instantiate C7. -/
def c7Data : List (String × PyVal) :=
  [("number_inpatient", PyVal.vint 0), ("number_diagnoses", PyVal.vint 9),
   ("number_emergency", PyVal.vint 1), ("number_outpatient", PyVal.vint 0),
   ("time_in_hospital", PyVal.vint 7), ("diag_1", PyVal.vstr "428"),
   ("diag_2", PyVal.vstr "276"), ("diag_3", PyVal.vstr "Unknown"),
   ("medical_specialty", PyVal.vstr "Unknown"), ("diabetesMed", PyVal.vstr "No")]

/-- Witness for C7: for a concrete artifact whose label output is the
bracketed string `"[<30]"` and whose probability vector is `[0, 0, 1]`,
the engine's probability `1` is an entry of the vector and lies in
`[0, 1]`; the returned label `"<30"` carries no bracket characters. -/
theorem C7_engine_output_normalization_witness :
    ((1 : Rat) ∈ ([0, 0, 1] : List Rat))
    ∧ (0 ≤ (1 : Rat) ∧ (1 : Rat) ≤ 1)
    ∧ isJunkChar (Char.ofNat 60) = false := by
  have h := C7_engine_output_normalization c7Artifact c7Data
    ⟨"<30", 1⟩ (by decide)
  have h2 := h.2 [0, 0, 1] (by decide)
  have hb := h2.2 (by decide) (by simp)
  exact ⟨h2.1.1, ⟨hb.1, hb.2⟩, h.1 (Char.ofNat 60) (by decide)⟩

/-! ### Aggregate statistics (src/api/routes/dashboard.py lines 31-65) -/

/-- `df['readmitted'].isin(['<30', '>30'])` for one row. -/
def rowIsReadmission (r : Row) : Bool :=
  lookupCell r "readmitted" == Cell.str "<30" ||
    lookupCell r "readmitted" == Cell.str ">30"

/-- `readmission_count`: rows whose target is `<30` or `>30`. -/
def readmissionCount (f : Frame) : Nat :=
  (f.rows.filter (fun r => rowIsReadmission r)).length

/-- `(df['readmitted'] == v).sum()`. -/
def targetCount (f : Frame) (v : String) : Nat :=
  (f.rows.filter (fun r => lookupCell r "readmitted" == Cell.str v)).length

/-- The statistics payload: the empty-store branch carries the
explanatory message, the populated branch carries the per-category
counts (`src/api/routes/dashboard.py` lines 40-63). -/
inductive StatsResult where
  | empty (rows : Nat) (readmission_rate : Rat) (features : Nat)
      (message : String) : StatsResult
  | full (rows : Nat) (readmission_rate : Rat) (features : Nat)
      (no_readmission readmission_less_30 readmission_more_30 : Nat) : StatsResult
deriving DecidableEq

/-- Whether the payload is the zeroed empty-store payload. -/
def isEmptyPayload : StatsResult → Bool
  | StatsResult.empty _ _ _ _ => true
  | StatsResult.full _ _ _ _ _ _ => false

/-- `stats` over the loaded frame (`src/api/routes/dashboard.py` lines
31-63): the zeroed payload with a message for an empty frame, otherwise
the row count, the readmission rate rounded to two decimals, and the
three per-category counts. -/
def stats (df : Frame) : StatsResult :=
  if df.rows.isEmpty then
    StatsResult.empty 0 0 10 "База данных пуста"
  else
    StatsResult.full df.rows.length
      (pyRound (((readmissionCount df : Rat) / (df.rows.length : Rat)) * 100) 2) 10
      (targetCount df "NO") (targetCount df "<30") (targetCount df ">30")

end Diabetes

namespace Diabetes

/-- A filtered length over a disjunction of two mutually exclusive
predicates is the sum of the filtered lengths. -/
theorem filter_or_length {α : Type} (l : List α) (p q : α → Bool)
    (hx : ∀ x ∈ l, ¬(p x = true ∧ q x = true)) :
    (l.filter (fun x => p x || q x)).length =
      (l.filter p).length + (l.filter q).length := by
  induction l with
  | nil => rfl
  | cons a as ih =>
    have htail := ih (fun x hxm => hx x (by simp [hxm]))
    by_cases hp : p a = true
    · have hq : q a = false := by
        cases hq2 : q a with
        | false => rfl
        | true => exact absurd ⟨hp, hq2⟩ (hx a (by simp))
      simp [List.filter_cons, hp, hq, htail, Nat.add_assoc, Nat.add_comm, Nat.add_left_comm]
    · have hp2 : p a = false := by
        cases hp3 : p a with
        | false => rfl
        | true => exact absurd hp3 hp
      by_cases hq : q a = true
      · simp [List.filter_cons, hp2, hq, htail, Nat.add_assoc, Nat.add_comm, Nat.add_left_comm]
      · have hq2 : q a = false := by
          cases hq3 : q a with
          | false => rfl
          | true => exact absurd hq3 hq
        simp [List.filter_cons, hp2, hq2, htail]

/-- C8: on a non-empty frame, `stats` returns the row count, the
readmission rate computed as (rows with target `<30` or `>30`) divided
by the total row count, times 100, rounded to two decimals (and that
numerator is exactly the `<30` count plus the `>30` count), together
with the three per-category counts; on an empty frame it returns the
zeroed payload with the explanatory message instead of failing. -/
theorem C8_stats (df : Frame) :
    (df.rows = [] →
      stats df = StatsResult.empty 0 0 10 "База данных пуста")
    ∧ (df.rows ≠ [] →
      stats df = StatsResult.full df.rows.length
        (pyRound (((readmissionCount df : Rat) / (df.rows.length : Rat)) * 100) 2) 10
        (targetCount df "NO") (targetCount df "<30") (targetCount df ">30")
      ∧ readmissionCount df = targetCount df "<30" + targetCount df ">30") := by
  constructor
  · intro h
    simp [stats, h]
  · intro h
    have hempty := rows_isEmpty_false (f := df) h
    constructor
    · simp [stats, hempty]
    · have : readmissionCount df =
          (df.rows.filter (fun r => lookupCell r "readmitted" == Cell.str "<30")).length +
          (df.rows.filter (fun r => lookupCell r "readmitted" == Cell.str ">30")).length := by
        apply filter_or_length
        intro r _ hboth
        have h1 : lookupCell r "readmitted" = Cell.str "<30" := by
          have := hboth.1
          simpa using this
        have h2 : lookupCell r "readmitted" = Cell.str ">30" := by
          have := hboth.2
          simpa using this
        rw [h1] at h2
        simp at h2
      exact this

/-- Witness for C8: a concrete two-row store (one `NO`, one `<30`) and
the empty store; the populated payload carries the rounded 50 percent
rate shape and counts 1/1/0, the empty store yields the zeroed payload. -/
theorem C8_stats_witness :
    stats ⟨REQUIRED_COLUMNS,
        [sampleRow 1 5 0 2 3 "250" "401" "Unknown" "Cardiology" "Yes" "NO",
         sampleRow 0 7 1 0 4 "428" "276" "Unknown" "Surgery" "No" "<30"]⟩ =
      StatsResult.full 2 (pyRound (((1 : Rat) / (2 : Rat)) * 100) 2) 10 1 1 0
    ∧ stats ⟨REQUIRED_COLUMNS, []⟩ =
      StatsResult.empty 0 0 10 "База данных пуста" := by
  constructor
  · exact ((C8_stats _).2 (by decide)).1
  · exact (C8_stats _).1 rfl

/-! ### Loading from the store (src/data_processing/load_data.py lines 39-75) -/

/-- One store record rendered back into a frame row, in the source's
dictionary order (`src/data_processing/load_data.py` lines 59-71). -/
def recordToRow (p : PatientTop10) : Row :=
  [("number_inpatient", Cell.int p.number_inpatient),
   ("number_diagnoses", Cell.int p.number_diagnoses),
   ("number_emergency", Cell.int p.number_emergency),
   ("number_outpatient", Cell.int p.number_outpatient),
   ("time_in_hospital", Cell.int p.time_in_hospital),
   ("diag_1", Cell.str p.diag_1), ("diag_2", Cell.str p.diag_2),
   ("diag_3", Cell.str p.diag_3), ("medical_specialty", Cell.str p.medical_specialty),
   ("diabetesMed", Cell.str p.diabetesMed), ("readmitted", Cell.str p.readmitted)]

/-- `pd.DataFrame(data)` over the store records. -/
def frameOfRecords (recs : List PatientTop10) : Frame :=
  ⟨REQUIRED_COLUMNS, recs.map recordToRow⟩

inductive LoadError where
  | initFailure : LoadError
deriving DecidableEq

/-- `load_top10_from_db` (`src/data_processing/load_data.py` lines
39-75): initialize (and possibly seed) the store first; if the store
still has no records, fall back to reading the seed CSV directly when it
exists, or return an empty frame; otherwise render the records.  Returns
the frame together with the store state after initialization. -/
def load_top10_from_db (store : List PatientTop10) (seed : Option Frame) :
    Except LoadError (Frame × List PatientTop10) :=
  match init_db store seed with
  | Except.error _ => Except.error LoadError.initFailure
  | Except.ok store1 =>
    match store1 with
    | [] =>
      match seed with
      | some f => Except.ok (f, store1)
      | none => Except.ok (⟨[], []⟩, store1)
    | p :: ps => Except.ok (frameOfRecords (p :: ps), store1)

/-- The dashboard `stats` route (`src/api/routes/dashboard.py` lines
31-65): load (triggering initialization and seeding), then aggregate;
a load failure surfaces as a 500 with the store unchanged. -/
def stats_route (store : List PatientTop10) (seed : Option Frame) :
    Except LoadError StatsResult × List PatientTop10 :=
  match load_top10_from_db store seed with
  | Except.error e => (Except.error e, store)
  | Except.ok (df, store1) => (Except.ok (stats df), store1)

end Diabetes

namespace Diabetes

/-- C10: every store read through `load_top10_from_db` first runs store
initialization, so a statistics query against an empty store with a
seed source present commits the seed rows as a side effect (the returned
store is the seeded one); whenever the store still holds zero records
after initialization but the seed CSV exists, the query answers with the
frame read directly from the CSV; and the zeroed empty payload arises
exactly when the store after initialization is empty and the CSV yields
no rows (is absent or empty). -/
theorem C10_load_triggers_seeding (store : List PatientTop10) (seed : Option Frame) :
    (∀ f recs, store = [] → seed = some f →
      init_db store seed = Except.ok recs →
      stats_route store seed =
        (Except.ok (stats (if recs.isEmpty then f else frameOfRecords recs)), recs))
    ∧ (∀ f, seed = some f → init_db store seed = Except.ok [] →
      load_top10_from_db store seed = Except.ok (f, []))
    ∧ (∀ df store1, load_top10_from_db store seed = Except.ok (df, store1) →
      (isEmptyPayload (stats df) = true ↔ df.rows = [])
      ∧ (df.rows = [] ↔ store1 = [] ∧
          (seed = none ∨ ∃ f, seed = some f ∧ f.rows = []))) := by
  refine ⟨?_, ?_, ?_⟩
  · intro f recs hstore hseed hinit
    subst hstore
    subst hseed
    cases recs with
    | nil => simp [stats_route, load_top10_from_db, hinit]
    | cons p ps => simp [stats_route, load_top10_from_db, hinit]
  · intro f hseed hinit
    subst hseed
    simp [load_top10_from_db, hinit]
  · intro df store1 hload
    cases hinit : init_db store seed with
    | error e => rw [load_top10_from_db, hinit] at hload; simp at hload
    | ok s1 =>
      rw [load_top10_from_db, hinit] at hload
      have hiso : ∀ g : Frame, isEmptyPayload (stats g) = true ↔ g.rows = [] := by
        intro g
        constructor
        · intro h
          cases hr : g.rows with
          | nil => rfl
          | cons a l =>
            have he : g.rows.isEmpty = false := by rw [hr]; rfl
            rw [stats] at h
            rw [he] at h
            simp [isEmptyPayload] at h
        · intro h
          have he : g.rows.isEmpty = true := by rw [h]; rfl
          rw [stats, he]
          rfl
      cases s1 with
      | nil =>
        cases hseed : seed with
        | none =>
          rw [hseed] at hload
          simp only [Except.ok.injEq, Prod.mk.injEq] at hload
          obtain ⟨hdf, hs1⟩ := hload
          subst hdf
          subst hs1
          refine ⟨hiso _, ?_⟩
          simp
        | some f =>
          rw [hseed] at hload
          simp only [Except.ok.injEq, Prod.mk.injEq] at hload
          obtain ⟨hdf, hs1⟩ := hload
          subst hdf
          subst hs1
          refine ⟨hiso _, ?_⟩
          constructor
          · intro h
            exact ⟨rfl, Or.inr ⟨_, rfl, h⟩⟩
          · intro h
            rcases h.2 with h2 | ⟨g, hg, hrows⟩
            · exact absurd h2 (by simp)
            · cases hg
              exact hrows
      | cons p ps =>
        simp only [Except.ok.injEq, Prod.mk.injEq] at hload
        obtain ⟨hdf, hs1⟩ := hload
        subst hdf
        subst hs1
        refine ⟨hiso _, ?_⟩
        constructor
        · intro h
          exact absurd h (by simp [frameOfRecords])
        · intro h
          exact absurd h.1 (by simp)

/-- Witness for C10: a one-row seed against an empty store is committed
by the statistics query (the returned store holds the seeded record),
and the resulting payload is not the zeroed one; with no seed source the
query keeps the store empty and returns the zeroed payload. -/
theorem C10_load_triggers_seeding_witness :
    stats_route [] (some ⟨REQUIRED_COLUMNS,
        [sampleRow 2 6 0 1 8 "250.6" "403" "Unknown" "Podiatry" "Yes" ">30"]⟩) =
      (Except.ok (stats (frameOfRecords
        [⟨2, 6, 0, 1, 8, "250.6", "403", "Unknown", "Podiatry", "Yes", ">30"⟩])),
       [⟨2, 6, 0, 1, 8, "250.6", "403", "Unknown", "Podiatry", "Yes", ">30"⟩])
    ∧ (isEmptyPayload (stats (⟨[], []⟩ : Frame)) = true ↔ (⟨[], []⟩ : Frame).rows = []) := by
  constructor
  · exact (C10_load_triggers_seeding [] _).1
      ⟨REQUIRED_COLUMNS, [sampleRow 2 6 0 1 8 "250.6" "403" "Unknown" "Podiatry" "Yes" ">30"]⟩
      [⟨2, 6, 0, 1, 8, "250.6", "403", "Unknown", "Podiatry", "Yes", ">30"⟩]
      rfl rfl (by decide)
  · exact ((C10_load_triggers_seeding [] none).2.2 ⟨[], []⟩ [] (by decide)).1

/-! ### Column-level lemmas for the imputation pass -/

theorem lookupCell_setCell_same (r : Row) (c : String) (v : Cell) :
    lookupCell (setCell r c v) c = v := by
  simp [lookupCell, setCell, List.lookup]

theorem lookup_filter_ne {r : Row} {c c2 : String} (h : c2 ≠ c) :
    List.lookup c2 (r.filter (fun p => !(p.1 == c))) = List.lookup c2 r := by
  induction r with
  | nil => rfl
  | cons p ps ih =>
    by_cases hp : p.1 = c
    · have hf : (!(p.1 == c)) = false := by simp [hp]
      have hk : (c2 == p.1) = false := by
        rw [hp]
        simpa using h
      rw [List.filter_cons, hf]
      simp only [List.lookup, hk]
      exact ih
    · have hf : (!(p.1 == c)) = true := by simpa using hp
      rw [List.filter_cons, hf]
      cases hk : (c2 == p.1) with
      | true => simp [List.lookup, hk]
      | false => simp only [List.lookup, hk]; exact ih

theorem lookupCell_setCell_ne (r : Row) (c c2 : String) (v : Cell) (h : c2 ≠ c) :
    lookupCell (setCell r c v) c2 = lookupCell r c2 := by
  simp only [lookupCell, setCell, List.lookup]
  have hk : (c2 == c) = false := by simpa using h
  rw [hk]
  rw [lookup_filter_ne h]

theorem colCells_fillColNa_same (f : Frame) (c : String) (v : Cell) :
    colCells (fillColNa f c v) c =
      (colCells f c).map (fun x => if x = Cell.na then v else x) := by
  simp only [colCells, fillColNa, List.map_map]
  apply list_map_congr
  intro r _
  simp only [Function.comp]
  by_cases hna : lookupCell r c = Cell.na
  · have : (lookupCell r c == Cell.na) = true := by simpa using hna
    rw [this]
    simp [lookupCell_setCell_same, hna]
  · have : (lookupCell r c == Cell.na) = false := by simpa using hna
    rw [this]
    simp [hna]

theorem colCells_fillColNa_ne (f : Frame) (c c2 : String) (v : Cell) (h : c2 ≠ c) :
    colCells (fillColNa f c v) c2 = colCells f c2 := by
  simp only [colCells, fillColNa, List.map_map]
  apply list_map_congr
  intro r _
  simp only [Function.comp]
  by_cases hna : lookupCell r c = Cell.na
  · have hb : (lookupCell r c == Cell.na) = true := by simpa using hna
    rw [hb]
    simp [lookupCell_setCell_ne r c c2 v h]
  · have hb : (lookupCell r c == Cell.na) = false := by simpa using hna
    rw [hb]
    simp

theorem fillColNa_cols (f : Frame) (c : String) (v : Cell) :
    (fillColNa f c v).cols = f.cols := rfl

theorem fillColNa_rows_length (f : Frame) (c : String) (v : Cell) :
    (fillColNa f c v).rows.length = f.rows.length := by
  simp [fillColNa]

theorem imputeNumericCol_cols (f : Frame) (c : String) :
    (imputeNumericCol f c).cols = f.cols := by
  rw [imputeNumericCol]
  by_cases h1 : f.cols.contains c
  · rw [if_pos h1]
    by_cases h2 : 0 < (colCells f c).count Cell.na
    · rw [if_pos h2]
      cases pandasMedian (numCells f c) with
      | some m => rfl
      | none => rfl
    · rw [if_neg h2]
  · rw [if_neg h1]

theorem imputeNumericCol_rows_length (f : Frame) (c : String) :
    (imputeNumericCol f c).rows.length = f.rows.length := by
  rw [imputeNumericCol]
  by_cases h1 : f.cols.contains c
  · rw [if_pos h1]
    by_cases h2 : 0 < (colCells f c).count Cell.na
    · rw [if_pos h2]
      cases pandasMedian (numCells f c) with
      | some m => exact fillColNa_rows_length f c _
      | none => rfl
    · rw [if_neg h2]
  · rw [if_neg h1]

theorem imputeNumericCol_colCells_ne (f : Frame) (c c2 : String) (h : c2 ≠ c) :
    colCells (imputeNumericCol f c) c2 = colCells f c2 := by
  rw [imputeNumericCol]
  by_cases h1 : f.cols.contains c
  · rw [if_pos h1]
    by_cases h2 : 0 < (colCells f c).count Cell.na
    · rw [if_pos h2]
      cases pandasMedian (numCells f c) with
      | some m => exact colCells_fillColNa_ne f c c2 _ h
      | none => rfl
    · rw [if_neg h2]
  · rw [if_neg h1]

theorem imputeCategoricalCol_cols (f : Frame) (c : String) :
    (imputeCategoricalCol f c).cols = f.cols := by
  rw [imputeCategoricalCol]
  by_cases h1 : f.cols.contains c
  · rw [if_pos h1]
    by_cases h2 : 0 < (colCells f c).count Cell.na
    · rw [if_pos h2]; rfl
    · rw [if_neg h2]
  · rw [if_neg h1]

theorem imputeCategoricalCol_rows_length (f : Frame) (c : String) :
    (imputeCategoricalCol f c).rows.length = f.rows.length := by
  rw [imputeCategoricalCol]
  by_cases h1 : f.cols.contains c
  · rw [if_pos h1]
    by_cases h2 : 0 < (colCells f c).count Cell.na
    · rw [if_pos h2]; exact fillColNa_rows_length f c _
    · rw [if_neg h2]
  · rw [if_neg h1]

theorem imputeCategoricalCol_colCells_ne (f : Frame) (c c2 : String) (h : c2 ≠ c) :
    colCells (imputeCategoricalCol f c) c2 = colCells f c2 := by
  rw [imputeCategoricalCol]
  by_cases h1 : f.cols.contains c
  · rw [if_pos h1]
    by_cases h2 : 0 < (colCells f c).count Cell.na
    · rw [if_pos h2]; exact colCells_fillColNa_ne f c c2 _ h
    · rw [if_neg h2]
  · rw [if_neg h1]

/-! ### The imputed column, expressed from the pre-imputation frame -/

/-- What one numeric column looks like after its imputation step. -/
def imputedNumericColumn (f : Frame) (c : String) : List Cell :=
  if f.cols.contains c then
    if 0 < (colCells f c).count Cell.na then
      match pandasMedian (numCells f c) with
      | some m => (colCells f c).map (fun x => if x = Cell.na then Cell.float m else x)
      | none => colCells f c
    else colCells f c
  else colCells f c

/-- What one categorical column looks like after its imputation step. -/
def imputedCategoricalColumn (f : Frame) (c : String) : List Cell :=
  if f.cols.contains c then
    if 0 < (colCells f c).count Cell.na then
      (colCells f c).map (fun x => if x = Cell.na then
        (pandasModeCell (colCells f c)).getD (Cell.str "Unknown") else x)
    else colCells f c
  else colCells f c

theorem imputeNumericCol_colCells_same (f : Frame) (c : String) :
    colCells (imputeNumericCol f c) c = imputedNumericColumn f c := by
  rw [imputeNumericCol, imputedNumericColumn]
  by_cases h1 : f.cols.contains c
  · rw [if_pos h1, if_pos h1]
    by_cases h2 : 0 < (colCells f c).count Cell.na
    · rw [if_pos h2, if_pos h2]
      cases pandasMedian (numCells f c) with
      | some m => exact colCells_fillColNa_same f c _
      | none => rfl
    · rw [if_neg h2, if_neg h2]
  · rw [if_neg h1, if_neg h1]

theorem imputeCategoricalCol_colCells_same (f : Frame) (c : String) :
    colCells (imputeCategoricalCol f c) c = imputedCategoricalColumn f c := by
  rw [imputeCategoricalCol, imputedCategoricalColumn]
  by_cases h1 : f.cols.contains c
  · rw [if_pos h1, if_pos h1]
    by_cases h2 : 0 < (colCells f c).count Cell.na
    · rw [if_pos h2, if_pos h2]
      exact colCells_fillColNa_same f c _
    · rw [if_neg h2, if_neg h2]
  · rw [if_neg h1, if_neg h1]

theorem imputedNumericColumn_congr {f g : Frame} (c : String)
    (hc : g.cols.contains c = f.cols.contains c)
    (hcol : colCells g c = colCells f c) :
    imputedNumericColumn g c = imputedNumericColumn f c := by
  simp only [imputedNumericColumn, numCells, hc, hcol]

theorem imputedCategoricalColumn_congr {f g : Frame} (c : String)
    (hc : g.cols.contains c = f.cols.contains c)
    (hcol : colCells g c = colCells f c) :
    imputedCategoricalColumn g c = imputedCategoricalColumn f c := by
  simp only [imputedCategoricalColumn, hc, hcol]

/-! ### The imputation folds, column by column -/

theorem foldl_imputeNumeric_cols : ∀ (l : List String) (f : Frame),
    (l.foldl imputeNumericCol f).cols = f.cols := by
  intro l
  induction l with
  | nil => intro f; rfl
  | cons x xs ih =>
    intro f
    rw [List.foldl_cons, ih, imputeNumericCol_cols]

theorem foldl_imputeNumeric_rows_length : ∀ (l : List String) (f : Frame),
    (l.foldl imputeNumericCol f).rows.length = f.rows.length := by
  intro l
  induction l with
  | nil => intro f; rfl
  | cons x xs ih =>
    intro f
    rw [List.foldl_cons, ih, imputeNumericCol_rows_length]

theorem foldl_imputeCategorical_cols : ∀ (l : List String) (f : Frame),
    (l.foldl imputeCategoricalCol f).cols = f.cols := by
  intro l
  induction l with
  | nil => intro f; rfl
  | cons x xs ih =>
    intro f
    rw [List.foldl_cons, ih, imputeCategoricalCol_cols]

theorem foldl_imputeCategorical_rows_length : ∀ (l : List String) (f : Frame),
    (l.foldl imputeCategoricalCol f).rows.length = f.rows.length := by
  intro l
  induction l with
  | nil => intro f; rfl
  | cons x xs ih =>
    intro f
    rw [List.foldl_cons, ih, imputeCategoricalCol_rows_length]

theorem foldl_imputeNumeric_colCells_not_mem : ∀ (l : List String) (f : Frame)
    (c : String), c ∉ l →
    colCells (l.foldl imputeNumericCol f) c = colCells f c := by
  intro l
  induction l with
  | nil => intro f c _; rfl
  | cons x xs ih =>
    intro f c hc
    rw [List.foldl_cons, ih _ _ (fun h => hc (List.mem_cons_of_mem _ h)),
      imputeNumericCol_colCells_ne f x c
        (fun h => hc (h ▸ List.mem_cons_self _ _))]

theorem foldl_imputeCategorical_colCells_not_mem : ∀ (l : List String) (f : Frame)
    (c : String), c ∉ l →
    colCells (l.foldl imputeCategoricalCol f) c = colCells f c := by
  intro l
  induction l with
  | nil => intro f c _; rfl
  | cons x xs ih =>
    intro f c hc
    rw [List.foldl_cons, ih _ _ (fun h => hc (List.mem_cons_of_mem _ h)),
      imputeCategoricalCol_colCells_ne f x c
        (fun h => hc (h ▸ List.mem_cons_self _ _))]

theorem foldl_imputeNumeric_colCells_mem : ∀ (l : List String) (f : Frame)
    (c : String), l.Nodup → c ∈ l →
    colCells (l.foldl imputeNumericCol f) c = imputedNumericColumn f c := by
  intro l
  induction l with
  | nil => intro f c _ hc; simp at hc
  | cons x xs ih =>
    intro f c hnd hc
    obtain ⟨hx, hxs⟩ := List.nodup_cons.mp hnd
    rw [List.foldl_cons]
    rcases List.mem_cons.mp hc with hEq | hmem
    · subst hEq
      rw [foldl_imputeNumeric_colCells_not_mem xs _ c hx,
        imputeNumericCol_colCells_same]
    · have hne : c ≠ x := fun h => hx (h ▸ hmem)
      rw [ih _ c hxs hmem]
      exact imputedNumericColumn_congr c (by rw [imputeNumericCol_cols])
        (imputeNumericCol_colCells_ne f x c hne)

theorem foldl_imputeCategorical_colCells_mem : ∀ (l : List String) (f : Frame)
    (c : String), l.Nodup → c ∈ l →
    colCells (l.foldl imputeCategoricalCol f) c = imputedCategoricalColumn f c := by
  intro l
  induction l with
  | nil => intro f c _ hc; simp at hc
  | cons x xs ih =>
    intro f c hnd hc
    obtain ⟨hx, hxs⟩ := List.nodup_cons.mp hnd
    rw [List.foldl_cons]
    rcases List.mem_cons.mp hc with hEq | hmem
    · subst hEq
      rw [foldl_imputeCategorical_colCells_not_mem xs _ c hx,
        imputeCategoricalCol_colCells_same]
    · have hne : c ≠ x := fun h => hx (h ▸ hmem)
      rw [ih _ c hxs hmem]
      exact imputedCategoricalColumn_congr c (by rw [imputeCategoricalCol_cols])
        (imputeCategoricalCol_colCells_ne f x c hne)

/-! ### The whole imputation pass -/

theorem imputeFrame_cols (f : Frame) : (imputeFrame f).cols = f.cols := by
  rw [imputeFrame]
  by_cases h : 0 < countNaFrame f
  · rw [if_pos h, foldl_imputeCategorical_cols, foldl_imputeNumeric_cols]
  · rw [if_neg h]

theorem imputeFrame_rows_length (f : Frame) :
    (imputeFrame f).rows.length = f.rows.length := by
  rw [imputeFrame]
  by_cases h : 0 < countNaFrame f
  · rw [if_pos h, foldl_imputeCategorical_rows_length, foldl_imputeNumeric_rows_length]
  · rw [if_neg h]

theorem imputeFrame_numeric_col (f : Frame) (c : String)
    (hc : c ∈ NUMERICAL_FEATURES) :
    colCells (imputeFrame f) c =
      if 0 < countNaFrame f then imputedNumericColumn f c else colCells f c := by
  rw [imputeFrame]
  by_cases h : 0 < countNaFrame f
  · rw [if_pos h, if_pos h]
    have hnotcat : c ∉ CATEGORICAL_FEATURES := by
      have hdisj : ∀ x ∈ NUMERICAL_FEATURES, x ∉ CATEGORICAL_FEATURES := by decide
      exact hdisj c hc
    rw [foldl_imputeCategorical_colCells_not_mem _ _ _ hnotcat]
    exact foldl_imputeNumeric_colCells_mem _ f c (by decide) hc
  · rw [if_neg h, if_neg h]

theorem imputeFrame_categorical_col (f : Frame) (c : String)
    (hc : c ∈ CATEGORICAL_FEATURES) :
    colCells (imputeFrame f) c =
      if 0 < countNaFrame f then imputedCategoricalColumn f c else colCells f c := by
  rw [imputeFrame]
  by_cases h : 0 < countNaFrame f
  · rw [if_pos h, if_pos h]
    have hnotnum : c ∉ NUMERICAL_FEATURES := by
      have hdisj : ∀ x ∈ CATEGORICAL_FEATURES, x ∉ NUMERICAL_FEATURES := by decide
      exact hdisj c hc
    rw [foldl_imputeCategorical_colCells_mem _ _ c (by decide) hc]
    exact imputedCategoricalColumn_congr c (by rw [foldl_imputeNumeric_cols])
      (foldl_imputeNumeric_colCells_not_mem _ f c hnotnum)
  · rw [if_neg h, if_neg h]

/-! ### Support lemmas for the seeding claim -/

theorem countNaFrame_zero_col {f : Frame} (h : ¬0 < countNaFrame f) {c : String}
    (hc : f.cols.contains c = true) : (colCells f c).count Cell.na = 0 := by
  have h0 : countNaFrame f = 0 := Nat.eq_zero_of_not_pos h
  rw [countNaFrame] at h0
  have hmem : c ∈ f.cols := by simpa using hc
  exact List.sum_eq_zero_iff.mp h0 _
    (List.mem_map_of_mem (fun c2 => (colCells f c2).count Cell.na) hmem)

theorem pandasMedian_some {l : List Rat} (h : l ≠ []) :
    ∃ m, pandasMedian l = some m := by
  have hlen : ¬l.length = 0 := by simpa using h
  simp only [pandasMedian]
  rw [if_neg hlen]
  by_cases hodd : l.length % 2 = 1
  · rw [if_pos hodd]; exact ⟨_, rfl⟩
  · rw [if_neg hodd]; exact ⟨_, rfl⟩

theorem numCells_ne_nil {f : Frame} {c : String}
    (h : ∃ x ∈ colCells f c, (cellNum x).isSome = true) : numCells f c ≠ [] := by
  obtain ⟨x, hx, hs⟩ := h
  obtain ⟨q, hq⟩ := Option.isSome_iff_exists.mp hs
  intro hnil
  have : q ∈ numCells f c := List.mem_filterMap.mpr ⟨x, hx, hq⟩
  rw [hnil] at this
  simp at this

theorem foldl_cellmin_mem : ∀ (xs : List Cell) (x : Cell),
    xs.foldl (fun acc y => if cellLe y acc then y else acc) x ∈ x :: xs := by
  intro xs
  induction xs with
  | nil => intro x; simp [List.foldl]
  | cons z zs ih =>
    intro x
    rw [List.foldl_cons]
    by_cases h : cellLe z x = true
    · rw [if_pos h]
      rcases List.mem_cons.mp (ih z) with h2 | h2
      · rw [h2]; exact List.mem_cons_of_mem _ (List.mem_cons_self _ _)
      · exact List.mem_cons_of_mem _ (List.mem_cons_of_mem _ h2)
    · rw [if_neg h]
      rcases List.mem_cons.mp (ih x) with h2 | h2
      · rw [h2]; exact List.mem_cons_self _ _
      · exact List.mem_cons_of_mem _ (List.mem_cons_of_mem _ h2)

theorem mem_modeCandidates_ne_na {l : List Cell} {x : Cell}
    (h : x ∈ modeCandidates l) : x ≠ Cell.na := by
  simp only [modeCandidates] at h
  have h1 := (List.mem_filter.mp h).1
  have h2 := (List.mem_filter.mp h1).2
  intro hna
  rw [hna] at h2
  simp at h2

theorem pandasModeCell_ne_na {l : List Cell} {v : Cell}
    (h : pandasModeCell l = some v) : v ≠ Cell.na := by
  simp only [pandasModeCell] at h
  cases hm : modeCandidates l with
  | nil => rw [hm] at h; simp at h
  | cons m ms =>
    rw [hm] at h
    simp only [Option.some.injEq] at h
    have hmem : v ∈ m :: ms := h ▸ foldl_cellmin_mem ms m
    rw [← hm] at hmem
    exact mem_modeCandidates_ne_na hmem

theorem pyInt_isSome_of_cellNum {x : Cell} (h : (cellNum x).isSome = true) :
    (pyInt x).isSome = true := by
  cases x with
  | na => simp [cellNum] at h
  | int n => rfl
  | float q => rfl
  | str s => simp [cellNum] at h

theorem map_fill_id {l : List Cell} {v : Cell} (h : Cell.na ∉ l) :
    l.map (fun x => if x = Cell.na then v else x) = l := by
  have heq : l.map (fun x => if x = Cell.na then v else x) = l.map id := by
    apply list_map_congr
    intro x hx
    have hne : x ≠ Cell.na := fun hna => h (hna ▸ hx)
    rw [if_neg hne]
    rfl
  rw [heq, List.map_id]

/-- The hypotheses under which the numeric half of the imputation pass
can succeed: each of the five numeric columns exists in the seed, holds
only missing or numeric cells, and has at least one present numeric
value (so its median exists). -/
def goodNumericSeed (f : Frame) : Prop :=
  ∀ c ∈ NUMERICAL_FEATURES, f.cols.contains c = true
    ∧ (∀ x ∈ colCells f c, x = Cell.na ∨ (cellNum x).isSome = true)
    ∧ (∃ x ∈ colCells f c, (cellNum x).isSome = true)

instance (f : Frame) : Decidable (goodNumericSeed f) := by
  unfold goodNumericSeed
  infer_instance

theorem imputed_numeric_cells {f : Frame} (hg : goodNumericSeed f) :
    ∀ c ∈ NUMERICAL_FEATURES, ∀ x ∈ colCells (imputeFrame f) c,
      (pyInt x).isSome = true := by
  intro c hc x hx
  obtain ⟨hcont, hcells, hex⟩ := hg c hc
  rw [imputeFrame_numeric_col f c hc] at hx
  by_cases hnaf : 0 < countNaFrame f
  · rw [if_pos hnaf] at hx
    rw [imputedNumericColumn, if_pos hcont] at hx
    by_cases hcount : 0 < (colCells f c).count Cell.na
    · rw [if_pos hcount] at hx
      obtain ⟨m, hm⟩ := pandasMedian_some (numCells_ne_nil hex)
      rw [hm] at hx
      obtain ⟨y, hy, hxy⟩ := List.mem_map.mp hx
      by_cases hyna : y = Cell.na
      · rw [if_pos hyna] at hxy
        rw [← hxy]
        rfl
      · rw [if_neg hyna] at hxy
        subst hxy
        rcases hcells y hy with h | h
        · exact absurd h hyna
        · exact pyInt_isSome_of_cellNum h
    · rw [if_neg hcount] at hx
      rcases hcells x hx with h | h
      · subst h
        exact absurd (List.count_pos_iff.mpr hx) hcount
      · exact pyInt_isSome_of_cellNum h
  · rw [if_neg hnaf] at hx
    have hzero := countNaFrame_zero_col hnaf hcont
    rcases hcells x hx with h | h
    · subst h
      exact absurd hx (List.count_eq_zero.mp hzero)
    · exact pyInt_isSome_of_cellNum h

theorem rowToRecord_isSome_of {r : Row}
    (h1 : (pyInt (lookupCell r "number_inpatient")).isSome = true)
    (h2 : (pyInt (lookupCell r "number_diagnoses")).isSome = true)
    (h3 : (pyInt (lookupCell r "number_emergency")).isSome = true)
    (h4 : (pyInt (lookupCell r "number_outpatient")).isSome = true)
    (h5 : (pyInt (lookupCell r "time_in_hospital")).isSome = true) :
    (rowToRecord r).isSome = true := by
  obtain ⟨a1, e1⟩ := Option.isSome_iff_exists.mp h1
  obtain ⟨a2, e2⟩ := Option.isSome_iff_exists.mp h2
  obtain ⟨a3, e3⟩ := Option.isSome_iff_exists.mp h3
  obtain ⟨a4, e4⟩ := Option.isSome_iff_exists.mp h4
  obtain ⟨a5, e5⟩ := Option.isSome_iff_exists.mp h5
  simp [rowToRecord, e1, e2, e3, e4, e5]

end Diabetes

namespace Diabetes

/-- A one-row seed whose `number_inpatient` column is entirely missing,
used by the C9 counterexample. -/
def c9BadSeed : Frame :=
  ⟨REQUIRED_COLUMNS,
   [[("number_inpatient", Cell.na), ("number_diagnoses", Cell.int 5),
     ("number_emergency", Cell.int 0), ("number_outpatient", Cell.int 0),
     ("time_in_hospital", Cell.int 2), ("diag_1", Cell.str "428"),
     ("diag_2", Cell.str "276"), ("diag_3", Cell.str "Unknown"),
     ("medical_specialty", Cell.str "Cardiology"), ("diabetesMed", Cell.str "No"),
     ("readmitted", Cell.str "NO")]]⟩

/-- C9 counterexample: seeding an empty store from a seed file whose
`number_inpatient` column is entirely missing does not yield a populated
store - the column's median is itself missing, the gap is not filled,
and `int(nan)` makes seeding fail with a coercion error. -/
theorem C9_counterexample :
    init_db [] (some c9BadSeed) = Except.error SeedError.coercionFailure
    ∧ colCells (imputeFrame c9BadSeed) "number_inpatient" = [Cell.na] := by
  decide

/-- C9 (amended): initialization loads the seed only when the store
holds zero records and the seed exists (re-running on a non-empty store,
or with no seed, changes nothing); during seeding, provided every
numeric column is present with only numeric-or-missing cells and at
least one present value, seeding succeeds with one record per seed row,
every gap in a present numeric or categorical column is filled (missing
numerics with that column's median, missing categoricals with that
column's mode, falling back to the literal Unknown when the column has
no mode); a numeric column that is entirely missing instead makes
seeding fail with a coercion error rather than yielding a populated
store. -/
theorem C9_store_seeding (store : List PatientTop10) (seed : Option Frame) (f : Frame) :
    (store ≠ [] → init_db store seed = Except.ok store)
    ∧ init_db store none = Except.ok store
    ∧ (goodNumericSeed f →
        (∀ recs, init_db [] (some f) = Except.ok recs →
          recs.length = f.rows.length)
        ∧ init_db [] (some f) ≠ Except.error SeedError.coercionFailure
        ∧ (∀ c ∈ NUMERICAL_FEATURES ++ CATEGORICAL_FEATURES,
            f.cols.contains c = true →
            ∀ x ∈ colCells (imputeFrame f) c, x ≠ Cell.na)
        ∧ (∀ c ∈ NUMERICAL_FEATURES, ∀ m, pandasMedian (numCells f c) = some m →
            colCells (imputeFrame f) c =
              (colCells f c).map (fun x => if x = Cell.na then Cell.float m else x))
        ∧ (∀ c ∈ CATEGORICAL_FEATURES, f.cols.contains c = true →
            colCells (imputeFrame f) c =
              (colCells f c).map (fun x => if x = Cell.na then
                (pandasModeCell (colCells f c)).getD (Cell.str "Unknown") else x))) := by
  refine ⟨?_, ?_, ?_⟩
  · intro h
    have hlen : ¬store.length = 0 := fun h0 => h (List.length_eq_zero.mp h0)
    rw [init_db.eq_def, if_neg hlen]
  · by_cases h : store.length = 0
    · simp [init_db, h]
    · simp [init_db, h]
  · intro hg
    have hrows_ok : ∀ r ∈ (imputeFrame f).rows, (rowToRecord r).isSome = true := by
      intro r hr
      exact rowToRecord_isSome_of
        (imputed_numeric_cells hg "number_inpatient" (by decide) _
          (List.mem_map_of_mem (fun r2 => lookupCell r2 "number_inpatient") hr))
        (imputed_numeric_cells hg "number_diagnoses" (by decide) _
          (List.mem_map_of_mem (fun r2 => lookupCell r2 "number_diagnoses") hr))
        (imputed_numeric_cells hg "number_emergency" (by decide) _
          (List.mem_map_of_mem (fun r2 => lookupCell r2 "number_emergency") hr))
        (imputed_numeric_cells hg "number_outpatient" (by decide) _
          (List.mem_map_of_mem (fun r2 => lookupCell r2 "number_outpatient") hr))
        (imputed_numeric_cells hg "time_in_hospital" (by decide) _
          (List.mem_map_of_mem (fun r2 => lookupCell r2 "time_in_hospital") hr))
    obtain ⟨recs, hbr, hlen⟩ := buildRecords_some hrows_ok
    have hinit : init_db [] (some f) = Except.ok recs := by
      simp [init_db, hbr]
    refine ⟨?_, ?_, ?_, ?_, ?_⟩
    · intro recs2 h2
      rw [hinit] at h2
      simp only [Except.ok.injEq] at h2
      subst h2
      rw [hlen, imputeFrame_rows_length]
    · rw [hinit]
      simp
    · intro c hc hcont x hx
      rcases List.mem_append.mp hc with hnum | hcat
      · have hsome := imputed_numeric_cells hg c hnum x hx
        intro hna
        rw [hna] at hsome
        simp [pyInt] at hsome
      · rw [imputeFrame_categorical_col f c hcat] at hx
        by_cases hnaf : 0 < countNaFrame f
        · rw [if_pos hnaf] at hx
          rw [imputedCategoricalColumn, if_pos hcont] at hx
          by_cases hcount : 0 < (colCells f c).count Cell.na
          · rw [if_pos hcount] at hx
            obtain ⟨y, hy, hxy⟩ := List.mem_map.mp hx
            by_cases hyna : y = Cell.na
            · rw [if_pos hyna] at hxy
              rw [← hxy]
              cases hmode : pandasModeCell (colCells f c) with
              | some w =>
                simpa using pandasModeCell_ne_na hmode
              | none =>
                simp
            · rw [if_neg hyna] at hxy
              subst hxy
              exact hyna
          · rw [if_neg hcount] at hx
            intro hna
            subst hna
            exact hcount (List.count_pos_iff.mpr hx)
        · rw [if_neg hnaf] at hx
          have hzero := countNaFrame_zero_col hnaf hcont
          intro hna
          subst hna
          exact absurd hx (List.count_eq_zero.mp hzero)
    · intro c hc m hm
      obtain ⟨hcont, hcells, hex⟩ := hg c hc
      rw [imputeFrame_numeric_col f c hc]
      by_cases hnaf : 0 < countNaFrame f
      · rw [if_pos hnaf, imputedNumericColumn, if_pos hcont]
        by_cases hcount : 0 < (colCells f c).count Cell.na
        · rw [if_pos hcount, hm]
        · rw [if_neg hcount]
          have hna : Cell.na ∉ colCells f c :=
            List.count_eq_zero.mp (Nat.eq_zero_of_not_pos hcount)
          rw [map_fill_id hna]
      · rw [if_neg hnaf]
        have hna : Cell.na ∉ colCells f c :=
          List.count_eq_zero.mp (countNaFrame_zero_col hnaf hcont)
        rw [map_fill_id hna]
    · intro c hc hcont
      rw [imputeFrame_categorical_col f c hc]
      by_cases hnaf : 0 < countNaFrame f
      · rw [if_pos hnaf, imputedCategoricalColumn, if_pos hcont]
        by_cases hcount : 0 < (colCells f c).count Cell.na
        · rw [if_pos hcount]
        · rw [if_neg hcount]
          have hna : Cell.na ∉ colCells f c :=
            List.count_eq_zero.mp (Nat.eq_zero_of_not_pos hcount)
          rw [map_fill_id hna]
      · rw [if_neg hnaf]
        have hna : Cell.na ∉ colCells f c :=
          List.count_eq_zero.mp (countNaFrame_zero_col hnaf hcont)
        rw [map_fill_id hna]

/-- A two-row seed with complete numeric columns and one missing
`diag_3`, used only to instantiate C9. -/
def c9WitnessSeed : Frame :=
  ⟨REQUIRED_COLUMNS,
   [sampleRow 1 5 0 2 3 "250" "401" "V45" "Cardiology" "Yes" "NO",
    [("number_inpatient", Cell.int 0), ("number_diagnoses", Cell.int 7),
     ("number_emergency", Cell.int 1), ("number_outpatient", Cell.int 0),
     ("time_in_hospital", Cell.int 4), ("diag_1", Cell.str "428"),
     ("diag_2", Cell.str "276"), ("diag_3", Cell.na),
     ("medical_specialty", Cell.str "Surgery"), ("diabetesMed", Cell.str "No"),
     ("readmitted", Cell.str ">30")]]⟩

/-- Witness for C9: re-running initialization on a non-empty store
changes nothing; seeding the empty store from the concrete gappy seed
does not fail; and the imputed `diag_3` column is the original column
with its gap filled by the column's mode. -/
theorem C9_store_seeding_witness :
    init_db [⟨1, 5, 0, 2, 3, "250", "401", "V45", "Cardiology", "Yes", "NO"⟩]
        (some c9WitnessSeed) =
      Except.ok [⟨1, 5, 0, 2, 3, "250", "401", "V45", "Cardiology", "Yes", "NO"⟩]
    ∧ init_db [] (some c9WitnessSeed) ≠ Except.error SeedError.coercionFailure
    ∧ colCells (imputeFrame c9WitnessSeed) "diag_3" =
        (colCells c9WitnessSeed "diag_3").map (fun x => if x = Cell.na then
          (pandasModeCell (colCells c9WitnessSeed "diag_3")).getD (Cell.str "Unknown")
          else x) := by
  refine ⟨?_, ?_, ?_⟩
  · exact (C9_store_seeding
      [⟨1, 5, 0, 2, 3, "250", "401", "V45", "Cardiology", "Yes", "NO"⟩]
      (some c9WitnessSeed) c9WitnessSeed).1 (by simp)
  · exact ((C9_store_seeding [] (some c9WitnessSeed) c9WitnessSeed).2.2
      (by decide)).2.1
  · exact ((C9_store_seeding [] (some c9WitnessSeed) c9WitnessSeed).2.2
      (by decide)).2.2.2.2 "diag_3" (by decide) (by decide)

end Diabetes
